import Mathlib

/-!
Verification of the daisy-days documentation server against its design
specification.

The development shallowly embeds the two Rust source files:

* `Ext` models `src/lib.rs` (the editor-extension side): the documentation
  cache with its term index and scored search, and the HTML layout engine
  with its title sanitizer.
* `Server` models `src/main.rs` (the line-oriented JSON-RPC server): its own
  simpler documentation cache, the tool registry, and the request dispatcher.

Modelling conventions:

* Rust `HashMap` values are modelled as association lists; `insert` replaces
  the binding of an existing key.  All observable outputs of the program are
  order-normalised (lookups, or sorts with a total tie-break), so the
  arbitrary iteration order of a hash map is immaterial.
* Rust strings are modelled as Lean `String`; character classification
  (`to_lowercase`, `is_alphanumeric`, whitespace) uses the ASCII fragment,
  which is the fragment exercised by the corpus format and all concrete
  inputs.  `str::len` is modelled faithfully as the UTF-8 byte length
  (`utf8Len`).
* The embedded corpus file `llms.txt` is not part of the sources, so the
  parser is parameterised by the list of input lines.
-/

/-- ASCII lowercasing of one character, the fragment of Rust
`char::to_lowercase` relevant here. -/
def lowerChar (c : Char) : Char :=
  if 65 ≤ c.toNat ∧ c.toNat ≤ 90 then Char.ofNat (c.toNat + 32) else c

/-- Models Rust `str::to_lowercase`. -/
def lowerStr (s : String) : String :=
  ⟨s.data.map lowerChar⟩

/-- Models Rust `str::trim`: drop whitespace from both ends. -/
def trimStr (s : String) : String :=
  ⟨((s.data.dropWhile Char.isWhitespace).reverse.dropWhile Char.isWhitespace).reverse⟩

/-- `leadsWith pre l` is true when `pre` is an initial segment of `l`
(Rust `str::starts_with` on character lists). -/
def leadsWith : List Char → List Char → Bool
  | [], _ => true
  | _ :: _, [] => false
  | a :: xs, b :: ys => a = b && leadsWith xs ys

/-- `listIsSub n h` is true when `n` occurs contiguously inside `h`. -/
def listIsSub (needle : List Char) : List Char → Bool
  | [] => needle.isEmpty
  | c :: t => leadsWith needle (c :: t) || listIsSub needle t

/-- Models Rust `str::contains` (substring test): `containsStr hay sub`. -/
def containsStr (hay sub : String) : Bool :=
  listIsSub sub.data hay.data

/-- UTF-8 encoded size in bytes of one character. -/
def charUtf8Size (c : Char) : Nat :=
  if c.toNat < 128 then 1 else if c.toNat < 2048 then 2 else if c.toNat < 65536 then 3 else 4

/-- Models Rust `str::len`: the UTF-8 byte length of a string (not its
character count — a multi-byte character contributes more than one). -/
def utf8Len (s : String) : Nat :=
  (s.data.map charUtf8Size).sum

/-- Accumulator-based whitespace splitter over a character list. -/
def splitWsAux : List Char → List Char → List String
  | [], acc => if acc.isEmpty then [] else [⟨acc.reverse⟩]
  | c :: rest, acc =>
    if c.isWhitespace then
      if acc.isEmpty then splitWsAux rest [] else ⟨acc.reverse⟩ :: splitWsAux rest []
    else splitWsAux rest (c :: acc)

/-- Models Rust `str::split_whitespace`: maximal runs of non-whitespace. -/
def splitWsStr (s : String) : List String :=
  splitWsAux s.data []

/-- Lexicographic (less or equal) comparison of character lists; on valid
UTF-8 this agrees with the byte order Rust uses to compare `String`s. -/
def lexLe : List Char → List Char → Bool
  | [], _ => true
  | _ :: _, [] => false
  | a :: xs, b :: ys => if a < b then true else if b < a then false else lexLe xs ys

/-- Association-list lookup keyed by strings (models `HashMap::get`). -/
def alookup {β : Type} : List (String × β) → String → Option β
  | [], _ => none
  | p :: t, k => if p.1 = k then some p.2 else alookup t k

/-- Association-list insert that replaces any existing binding
(models `HashMap::insert`). -/
def mapInsert {β : Type} (m : List (String × β)) (k : String) (v : β) : List (String × β) :=
  m.filter (fun p => p.1 ≠ k) ++ [(k, v)]

/-- Models `index.entry(tok).or_default().push(key)`: append `key` to the
bucket of `tok`, creating the bucket when absent. -/
def idxPush (m : List (String × List String)) (tok key : String) : List (String × List String) :=
  if m.any (fun p => p.1 = tok) then
    m.map (fun p => if p.1 = tok then (p.1, p.2 ++ [key]) else p)
  else m ++ [(tok, [key])]

/-- Insertion step of the insertion sort `sortBy`. -/
def insertLe {α : Type} (le : α → α → Bool) (a : α) : List α → List α
  | [] => [a]
  | b :: t => if le a b then a :: b :: t else b :: insertLe le a t

/-- Insertion sort by a boolean comparison.  The program only sorts lists of
pairwise-distinct keys under total comparators, for which any comparison
sort (in particular Rust `sort_by`) returns this unique ordering. -/
def sortBy {α : Type} (le : α → α → Bool) : List α → List α
  | [] => []
  | a :: t => insertLe le a (sortBy le t)

/-- Keep one copy of every string of the list (first occurrences). -/
def dedupStr : List String → List String
  | [] => []
  | x :: t => if (dedupStr t).contains x then dedupStr t else x :: dedupStr t

/-- Split a character list at every newline. -/
def splitOnNl : List Char → List (List Char)
  | [] => [[]]
  | c :: rest =>
    if c = '\n' then [] :: splitOnNl rest
    else
      match splitOnNl rest with
      | p :: t => (c :: p) :: t
      | [] => [[c]]

/-- Models Rust `str::lines`: split at newlines, drop a final empty segment,
and strip one trailing carriage return from each line. -/
def rustLines (s : String) : List String :=
  let parts := splitOnNl s.data
  let parts := if parts.getLast? = some [] then parts.dropLast else parts
  parts.map (fun l => ⟨if l.getLast? = some '\x0d' then l.dropLast else l⟩)

/-- `line.strip_prefix("### ")` of both parsers. -/
def splitHeading (line : String) : Option String :=
  if leadsWith "### ".data line.data then some ⟨line.data.drop 4⟩ else none

namespace Ext

/-- The documentation store of `src/lib.rs`: entries keyed by normalised
name, plus the token index. -/
structure DocsCache where
  components : List (String × String)
  index : List (String × List String)
deriving Repr

/-- Parser state of `DocsCache::load` (both hash maps plus the current
component name and accumulated content). -/
structure LoadState where
  components : List (String × String)
  index : List (String × List String)
  curComp : String
  curContent : String

/-- Tokenise `content` (split on whitespace, lowercase, keep words whose
UTF-8 byte length exceeds 3 — `word_lower.len() > 3`, a byte count) and
append `key` to each token bucket; the indexing loop inside
`DocsCache::load` in `src/lib.rs`. -/
def indexContent (ix : List (String × List String)) (content key : String) :
    List (String × List String) :=
  (splitWsStr content).foldl
    (fun ix word =>
      let w := lowerStr word
      if 3 < utf8Len w then idxPush ix w key else ix)
    ix

/-- Finalise the current entry: normalise the key, store the trimmed body,
and index the body tokens (`src/lib.rs`, `DocsCache::load`). -/
def flushEntry (st : LoadState) : LoadState :=
  let key := lowerStr (trimStr st.curComp)
  { st with
    components := mapInsert st.components key (trimStr st.curContent)
    index := indexContent st.index st.curContent key }

/-- One iteration of the line loop of `DocsCache::load` in `src/lib.rs`. -/
def loadLine (st : LoadState) (line : String) : LoadState :=
  match splitHeading line with
  | some stripped =>
    let st := if st.curComp ≠ "" then flushEntry st else st
    { st with curComp := stripped, curContent := line ++ "\n" }
  | none =>
    if st.curComp ≠ "" then { st with curContent := st.curContent ++ line ++ "\n" } else st

/-- `DocsCache::load` of `src/lib.rs`, parameterised by the corpus lines. -/
def DocsCache.load (ls : List String) : DocsCache :=
  let st := ls.foldl loadLine ⟨[], [], "", ""⟩
  let st := if st.curComp ≠ "" then flushEntry st else st
  ⟨st.components, st.index⟩

/-- `DocsCache::list_components` of `src/lib.rs`: all keys sorted. -/
def DocsCache.list_components (c : DocsCache) : List String :=
  sortBy (fun a b => lexLe a.data b.data) (c.components.map Prod.fst)

/-- `DocsCache::get_doc` of `src/lib.rs`: empty name refused, otherwise an
exact lookup of the lowercased (not trimmed) name. -/
def DocsCache.get_doc (c : DocsCache) (name : String) : Option String :=
  if name = "" then none else alookup c.components (lowerStr name)

/-- The score the search loop of `src/lib.rs` computes for one entry:
100 for the query inside the key, 10 for the query inside the lowercased
body, plus 5 for every query-term occurrence whose index bucket lists the
key.  `q` is the already-lowercased query. -/
def entryScore (c : DocsCache) (q name content : String) : Nat :=
  (splitWsStr q).foldl
    (fun s w =>
      match alookup c.index w with
      | some ms => if ms.contains name then s + 5 else s
      | none => s)
    ((if containsStr name q then 100 else 0) +
      (if containsStr (lowerStr content) q then 10 else 0))

/-- `scores.insert(name, score)` guarded by `score > 0`, per component. -/
def scoreEntry (c : DocsCache) (q : String) (p : String × String) : Option (String × Nat) :=
  if 0 < entryScore c q p.1 p.2 then some (p.1, entryScore c q p.1 p.2) else none

/-- The comparator of `sorted.sort_by` in `src/lib.rs`: score descending,
then key ascending. -/
def rankLe (scores : List (String × Nat)) (a b : String) : Bool :=
  decide ((alookup scores b).getD 0 < (alookup scores a).getD 0) ||
    (decide ((alookup scores a).getD 0 = (alookup scores b).getD 0) && lexLe a.data b.data)

/-- `DocsCache::search` of `src/lib.rs`: score every entry, drop zero
scores, sort the keys (score descending, key ascending), truncate to 20 and
re-attach body and score. -/
def DocsCache.search (c : DocsCache) (query : String) : List (String × String × Nat) :=
  if query = "" then []
  else
    let q := lowerStr query
    let scores := c.components.filterMap (scoreEntry c q)
    ((sortBy (rankLe scores) (scores.map Prod.fst)).take 20).filterMap
      (fun k => (alookup c.components k).map (fun body => (k, body, (alookup scores k).getD 0)))


/-- `LayoutEngine::sanitize` of `src/lib.rs`: keep only alphanumeric,
whitespace, dash and underscore characters, truncated to 100 characters. -/
def sanitizeOkChar (c : Char) : Bool :=
  c.isAlphanum || c.isWhitespace || c = '-' || c = '_'

/-- `LayoutEngine::sanitize` of `src/lib.rs`. -/
def LayoutEngine.sanitize (text : String) : String :=
  ⟨(text.data.filter sanitizeOkChar).take 100⟩

/-- Template function `saas`. -/
def LayoutEngine.saas (t : String) : String :=
  "<div class=\"min-h-screen bg-base-100\">\n  <div class=\"navbar bg-base-100 sticky top-0 z-50 border-b border-base-200\">\n    <div class=\"flex-1\"><a class=\"btn btn-ghost text-xl font-bold\">" ++ t ++ "</a></div>\n    <div class=\"flex-none gap-2\">\n      <ul class=\"menu menu-horizontal px-1 hidden sm:flex\"><li><a>Features</a></li><li><a>Pricing</a></li></ul>\n      <button class=\"btn btn-primary\">Get Started</button>\n    </div>\n  </div>\n  <div class=\"hero min-h-[80vh] bg-base-200\">\n    <div class=\"hero-content text-center\">\n      <div class=\"max-w-2xl\">\n        <h1 class=\"text-5xl font-extrabold\">Build faster with <span class=\"text-primary\">" ++ t ++ "</span></h1>\n        <p class=\"py-6 text-xl text-base-content/80\">The ultimate scaffolding engine for modern web apps.</p>\n        <button class=\"btn btn-primary btn-lg\">Start Free Trial</button>\n      </div>\n    </div>\n  </div>\n  <div class=\"py-24 bg-base-100\">\n    <div class=\"container mx-auto px-4\">\n      <h2 class=\"text-3xl font-bold text-center mb-12\">Everything you need</h2>\n      <div class=\"grid grid-cols-1 md:grid-cols-3 gap-8\">\n        <div class=\"card bg-base-200 shadow-sm\"><div class=\"card-body\"><h3 class=\"card-title\">‚ö° Fast</h3><p>Optimized for speed.</p></div></div>\n        <div class=\"card bg-base-200 shadow-sm\"><div class=\"card-body\"><h3 class=\"card-title\">üîí Secure</h3><p>Bank-grade security.</p></div></div>\n        <div class=\"card bg-base-200 shadow-sm\"><div class=\"card-body\"><h3 class=\"card-title\">üé® Themable</h3><p>DaisyUI themes.</p></div></div>\n      </div>\n    </div>\n  </div>\n  <footer class=\"footer p-10 bg-base-300\"><nav><header class=\"footer-title\">Company</header><a class=\"link link-hover\">About</a></nav></footer>\n</div>"

/-- Template function `blog`. -/
def LayoutEngine.blog (t : String) : String :=
  "<div class=\"min-h-screen bg-base-100\">\n  <div class=\"navbar bg-base-100 border-b border-base-200\">\n    <div class=\"flex-1\"><a class=\"btn btn-ghost text-2xl font-serif\">" ++ t ++ "</a></div>\n  </div>\n  <div class=\"container mx-auto px-4 py-12\">\n    <div class=\"card lg:card-side bg-base-200 shadow-xl mb-16\">\n      <figure class=\"lg:w-1/2\"><img src=\"https://picsum.photos/800/600\" class=\"h-full object-cover\" /></figure>\n      <div class=\"card-body lg:w-1/2\"><h2 class=\"card-title text-4xl font-serif\">Featured Article</h2><p>Exploring cutting-edge patterns.</p><button class=\"btn btn-primary\">Read</button></div>\n    </div>\n    <div class=\"grid md:grid-cols-3 gap-8\">\n      <div class=\"card bg-base-200\"><div class=\"card-body\"><div class=\"badge badge-ghost mb-2\">Tech</div><h3 class=\"card-title\">Post Title</h3><p>Post excerpt...</p></div></div>\n    </div>\n  </div>\n</div>"

/-- Template function `social`. -/
def LayoutEngine.social (t : String) : String :=
  "<div class=\"min-h-screen bg-base-100 flex\">\n  <div class=\"w-64 hidden lg:block p-4 border-r border-base-200\">\n    <div class=\"text-2xl font-bold text-primary mb-4\">" ++ t ++ "</div>\n    <ul class=\"menu\"><li><a class=\"active\">üè† Home</a></li><li><a>üîî Notifications</a></li><li><a>‚úâÔ∏è Messages</a></li></ul>\n    <button class=\"btn btn-primary w-full mt-8\">Post</button>\n  </div>\n  <div class=\"flex-1 max-w-2xl border-r border-base-200\">\n    <div class=\"sticky top-0 bg-base-100/80 backdrop-blur p-4 border-b font-bold text-xl\">Home</div>\n    <div class=\"p-4 border-b\"><textarea class=\"textarea w-full\" placeholder=\"What\x27s happening?\"></textarea><button class=\"btn btn-primary btn-sm float-right\">Post</button></div>\n    <div class=\"p-4 border-b hover:bg-base-200/50\">\n      <div class=\"flex gap-4\"><div class=\"avatar\"><div class=\"w-12 rounded-full\"><img src=\"https://picsum.photos/100\" /></div></div>\n      <div><span class=\"font-bold\">User</span> <span class=\"opacity-50\">@user ‚Ä¢ 2h</span><p class=\"mt-1\">Just shipped! üöÄ</p></div></div>\n    </div>\n  </div>\n</div>"

/-- Template function `kanban`. -/
def LayoutEngine.kanban (t : String) : String :=
  "<div class=\"h-screen flex flex-col bg-base-200\">\n  <div class=\"navbar bg-base-100 shadow-sm\"><div class=\"flex-1\"><h1 class=\"text-xl font-bold\">" ++ t ++ "</h1></div><button class=\"btn btn-primary btn-sm\">Share</button></div>\n  <div class=\"flex-1 overflow-x-auto p-6\">\n    <div class=\"flex gap-6\">\n      <div class=\"w-80 shrink-0\"><h3 class=\"font-bold mb-3\">To Do <span class=\"badge badge-sm\">3</span></h3>\n        <div class=\"card bg-base-100 p-4 mb-2\"><div class=\"badge badge-warning mb-2\">Design</div><p class=\"font-semibold\">Create mockups</p></div>\n        <button class=\"btn btn-ghost btn-block\">+ Add Task</button>\n      </div>\n      <div class=\"w-80 shrink-0\"><h3 class=\"font-bold mb-3\">In Progress <span class=\"badge badge-sm\">1</span></h3>\n        <div class=\"card bg-base-100 p-4\"><div class=\"badge badge-info mb-2\">Dev</div><p class=\"font-semibold\">Implement Auth</p><progress class=\"progress progress-primary mt-2\" value=\"40\" max=\"100\"></progress></div>\n      </div>\n      <div class=\"w-80 shrink-0\"><h3 class=\"font-bold mb-3\">Done <span class=\"badge badge-sm\">2</span></h3>\n        <div class=\"card bg-base-100 p-4 opacity-60\"><p class=\"line-through\">Setup Repo</p></div>\n      </div>\n    </div>\n  </div>\n</div>"

/-- Template function `inbox`. -/
def LayoutEngine.inbox (t : String) : String :=
  "<div class=\"h-screen flex bg-base-100\">\n  <div class=\"w-64 border-r flex flex-col\">\n    <div class=\"p-4 font-bold text-xl\"><div class=\"badge badge-primary badge-lg mr-2\">M</div>" ++ t ++ "</div>\n    <button class=\"btn btn-primary mx-4\">‚úèÔ∏è Compose</button>\n    <ul class=\"menu flex-1 p-2\"><li><a class=\"active\">Inbox <span class=\"badge\">4</span></a></li><li><a>Sent</a></li><li><a>Drafts</a></li></ul>\n  </div>\n  <div class=\"w-80 border-r overflow-y-auto\">\n    <input class=\"input input-bordered w-full m-2\" placeholder=\"Search\" style=\"width:calc(100%-1rem)\" />\n    <div class=\"p-4 hover:bg-base-200 cursor-pointer border-b\"><span class=\"font-bold\">Sender</span><div class=\"font-semibold truncate\">Subject line</div><div class=\"text-sm opacity-60 truncate\">Preview text...</div></div>\n  </div>\n  <div class=\"flex-1 flex flex-col\">\n    <div class=\"p-6 border-b\"><h2 class=\"text-2xl font-bold\">Email Subject</h2><div class=\"mt-2 text-sm\">From: <span class=\"font-bold\">sender@example.com</span></div></div>\n    <div class=\"p-6 flex-1\"><p>Email content goes here...</p></div>\n  </div>\n</div>"

/-- Template function `profile`. -/
def LayoutEngine.profile (t : String) : String :=
  "<div class=\"min-h-screen bg-base-200 p-4 md:p-8\">\n  <div class=\"max-w-4xl mx-auto\">\n    <h1 class=\"text-3xl font-bold mb-8\">" ++ t ++ "</h1>\n    <div class=\"flex flex-col md:flex-row gap-6\">\n      <ul class=\"menu bg-base-100 rounded-box w-full md:w-64 shadow-sm\"><li><a class=\"active\">General</a></li><li><a>Account</a></li><li><a>Notifications</a></li><li><a class=\"text-error\">Danger Zone</a></li></ul>\n      <div class=\"flex-1 card bg-base-100 shadow-sm\">\n        <div class=\"card-body\">\n          <h2 class=\"card-title mb-4\">Profile Information</h2>\n          <div class=\"flex items-center gap-4 mb-6\"><div class=\"avatar placeholder\"><div class=\"bg-neutral text-neutral-content rounded-full w-24\"><span class=\"text-3xl\">U</span></div></div><button class=\"btn btn-sm btn-outline\">Change Avatar</button></div>\n          <div class=\"form-control mb-4\"><label class=\"label\">Name</label><input class=\"input input-bordered\" value=\"User Name\" /></div>\n          <div class=\"form-control mb-4\"><label class=\"label\">Email</label><input class=\"input input-bordered\" value=\"user@example.com\" /></div>\n          <div class=\"form-control mb-4\"><label class=\"label\">Bio</label><textarea class=\"textarea textarea-bordered\">Bio here...</textarea></div>\n          <button class=\"btn btn-primary\">Save Changes</button>\n        </div>\n      </div>\n    </div>\n  </div>\n</div>"

/-- Template function `docs`. -/
def LayoutEngine.docs (t : String) : String :=
  "<div class=\"drawer lg:drawer-open\">\n  <input id=\"docs-drawer\" type=\"checkbox\" class=\"drawer-toggle\" />\n  <div class=\"drawer-content\">\n    <div class=\"navbar bg-base-100 border-b lg:hidden\"><label for=\"docs-drawer\" class=\"btn btn-ghost\">‚ò∞</label><span class=\"font-bold\">" ++ t ++ "</span></div>\n    <div class=\"p-8 max-w-4xl mx-auto\">\n      <div class=\"text-sm breadcrumbs mb-4\"><ul><li><a>Docs</a></li><li>Installation</li></ul></div>\n      <h1 class=\"text-4xl font-bold mb-6\">Installation</h1>\n      <p class=\"mb-4 text-lg\">Get started in minutes.</p>\n      <div class=\"mockup-code mb-6\"><pre data-prefix=\"$\"><code>npm install package-name</code></pre></div>\n      <h2 class=\"text-2xl font-bold mt-8 mb-4\">Configuration</h2>\n      <p>Add to your config file.</p>\n      <div class=\"alert alert-info mt-8\"><span>Requires Node.js 18+</span></div>\n    </div>\n  </div>\n  <div class=\"drawer-side border-r\"><label for=\"docs-drawer\" class=\"drawer-overlay\"></label>\n    <ul class=\"menu p-4 w-80 min-h-full bg-base-100\"><li class=\"menu-title\">" ++ t ++ " Docs</li><li><a class=\"active\">Installation</a></li><li><a>Usage</a></li><li><a>Components</a></li></ul>\n  </div>\n</div>"

/-- Template function `dashboard`. -/
def LayoutEngine.dashboard (t : String) : String :=
  "<div class=\"drawer lg:drawer-open\">\n  <input id=\"dash-drawer\" type=\"checkbox\" class=\"drawer-toggle\" />\n  <div class=\"drawer-content flex flex-col\">\n    <div class=\"navbar bg-base-300\"><div class=\"lg:hidden\"><label for=\"dash-drawer\" class=\"btn btn-ghost\">‚ò∞</label></div><div class=\"flex-1 font-bold text-xl px-4\">" ++ t ++ "</div></div>\n    <div class=\"p-6\">\n      <h2 class=\"text-2xl font-bold mb-6\">Dashboard</h2>\n      <div class=\"stats shadow mb-6 w-full\">\n        <div class=\"stat\"><div class=\"stat-title\">Users</div><div class=\"stat-value\">31K</div><div class=\"stat-desc\">‚ÜóÔ∏é 22%</div></div>\n        <div class=\"stat\"><div class=\"stat-title\">Revenue</div><div class=\"stat-value\">$12.5K</div><div class=\"stat-desc\">‚ÜóÔ∏é 14%</div></div>\n        <div class=\"stat\"><div class=\"stat-title\">Orders</div><div class=\"stat-value\">1,234</div><div class=\"stat-desc\">‚ÜòÔ∏é 3%</div></div>\n      </div>\n      <div class=\"card bg-base-100 shadow\"><div class=\"card-body\"><h3 class=\"card-title\">Recent Activity</h3><p>Activity items go here...</p></div></div>\n    </div>\n  </div>\n  <div class=\"drawer-side\"><label for=\"dash-drawer\" class=\"drawer-overlay\"></label>\n    <ul class=\"menu p-4 w-80 min-h-full bg-base-200\"><li class=\"menu-title\">Menu</li><li><a class=\"active\">Overview</a></li><li><a>Analytics</a></li><li><a>Settings</a></li></ul>\n  </div>\n</div>"

/-- Template function `auth`. -/
def LayoutEngine.auth (t : String) : String :=
  "<div class=\"hero min-h-screen bg-base-200\">\n  <div class=\"card w-full max-w-sm shadow-2xl bg-base-100\">\n    <form class=\"card-body\">\n      <h1 class=\"text-2xl font-bold text-center\">" ++ t ++ "</h1>\n      <div class=\"form-control\"><label class=\"label\"><span class=\"label-text\">Email</span></label><input type=\"email\" class=\"input input-bordered\" required /></div>\n      <div class=\"form-control\"><label class=\"label\"><span class=\"label-text\">Password</span></label><input type=\"password\" class=\"input input-bordered\" required /><label class=\"label\"><a class=\"label-text-alt link link-hover\">Forgot password?</a></label></div>\n      <div class=\"form-control mt-6\"><button class=\"btn btn-primary\">Login</button></div>\n      <div class=\"divider\">OR</div>\n      <button class=\"btn btn-outline\">Sign up</button>\n    </form>\n  </div>\n</div>"

/-- Template function `store`. -/
def LayoutEngine.store (t : String) : String :=
  "<div class=\"min-h-screen bg-base-100\">\n  <div class=\"navbar bg-base-100 border-b\"><div class=\"flex-1\"><a class=\"btn btn-ghost text-xl\">" ++ t ++ "</a></div>\n    <div class=\"flex-none\"><button class=\"btn btn-ghost btn-circle\"><span class=\"indicator\"><svg class=\"h-5 w-5\" fill=\"none\" viewBox=\"0 0 24 24\" stroke=\"currentColor\"><path stroke-linecap=\"round\" stroke-linejoin=\"round\" stroke-width=\"2\" d=\"M3 3h2l.4 2M7 13h10l4-8H5.4M7 13L5.4 5M7 13l-2.293 2.293c-.63.63-.184 1.707.707 1.707H17m0 0a2 2 0 100 4 2 2 0 000-4zm-8 2a2 2 0 11-4 0 2 2 0 014 0z\" /></svg><span class=\"badge badge-sm indicator-item\">3</span></span></button></div>\n  </div>\n  <div class=\"hero bg-base-200 py-16\"><div class=\"hero-content text-center\"><div><h1 class=\"text-5xl font-bold\">" ++ t ++ "</h1><p class=\"py-6\">Discover amazing products</p><button class=\"btn btn-primary\">Shop Now</button></div></div></div>\n  <div class=\"container mx-auto p-8\">\n    <h2 class=\"text-2xl font-bold mb-6\">Featured Products</h2>\n    <div class=\"grid grid-cols-1 md:grid-cols-3 lg:grid-cols-4 gap-6\">\n      <div class=\"card bg-base-100 shadow\"><figure><img src=\"https://picsum.photos/400/300\" /></figure><div class=\"card-body\"><h3 class=\"card-title\">Product</h3><p>$99.00</p><button class=\"btn btn-primary btn-sm\">Add to Cart</button></div></div>\n    </div>\n  </div>\n</div>"


/-- The `match layout` dispatch of `LayoutEngine::generate` in `src/lib.rs`,
applied to an already-prepared title `t`. -/
def LayoutEngine.generateRaw (layout : String) (t : String) : String :=
  if layout = "saas" then LayoutEngine.saas t
  else if layout = "blog" then LayoutEngine.blog t
  else if layout = "social" then LayoutEngine.social t
  else if layout = "kanban" then LayoutEngine.kanban t
  else if layout = "inbox" then LayoutEngine.inbox t
  else if layout = "profile" then LayoutEngine.profile t
  else if layout = "docs" then LayoutEngine.docs t
  else if layout = "dashboard" then LayoutEngine.dashboard t
  else if layout = "auth" then LayoutEngine.auth t
  else if layout = "store" then LayoutEngine.store t
  else LayoutEngine.saas t

/-- `LayoutEngine::generate` of `src/lib.rs`: sanitize the title, then
dispatch on the layout name. -/
def LayoutEngine.generate (layout title : String) : String :=
  LayoutEngine.generateRaw layout (LayoutEngine.sanitize title)

end Ext

/-! ## Specification-side definitions

The following definitions transcribe the wording of the specification (and
of the claims derived from it), to be compared with the embedded code. -/

/-- Spec wording: query term `t` counts for an entry when `index[t]`
contains the key of the entry. -/
def termHit (c : Ext.DocsCache) (name t : String) : Bool :=
  match alookup c.index t with
  | some ms => ms.contains name
  | none => false

/-- Score formula as the claim states it, except that query terms are
counted with multiplicity (each occurrence of a term in the
whitespace-split query counts). -/
def specScoreMult (c : Ext.DocsCache) (q name content : String) : Nat :=
  (if containsStr name q then 100 else 0) +
    (if containsStr (lowerStr content) q then 10 else 0) +
    5 * ((splitWsStr q).countP (termHit c name))

/-- Score formula exactly as the claim states it: 5 points per **distinct**
query term whose index bucket contains the key. -/
def specScoreDistinct (c : Ext.DocsCache) (q name content : String) : Nat :=
  (if containsStr name q then 100 else 0) +
    (if containsStr (lowerStr content) q then 10 else 0) +
    5 * ((dedupStr (splitWsStr q)).countP (termHit c name))

/-- Result ordering stated by the spec: score descending, ties broken by
key ascending. -/
def tupLe (a b : String × String × Nat) : Bool :=
  decide (b.2.2 < a.2.2) || (decide (a.2.2 = b.2.2) && lexLe a.1.data b.1.data)

/-- One scored result row (multiplicity counting), kept when the score is
positive. -/
def specTuple (c : Ext.DocsCache) (q : String) (p : String × String) :
    Option (String × String × Nat) :=
  if 0 < specScoreMult c q p.1 p.2 then some (p.1, p.2, specScoreMult c q p.1 p.2) else none

/-- All positively scored result rows (multiplicity counting). -/
def specTuples (c : Ext.DocsCache) (q : String) : List (String × String × Nat) :=
  c.components.filterMap (specTuple c q)

/-- The search result pipeline as the spec states it, with query terms
counted with multiplicity: score each entry, keep positive scores, sort by
score descending then key ascending, truncate to the top 20. -/
def searchSpecMult (c : Ext.DocsCache) (query : String) : List (String × String × Nat) :=
  (sortBy tupLe (specTuples c (lowerStr query))).take 20

/-- One scored result row under the distinct-terms formula. -/
def specTupleD (c : Ext.DocsCache) (q : String) (p : String × String) :
    Option (String × String × Nat) :=
  if 0 < specScoreDistinct c q p.1 p.2 then
    some (p.1, p.2, specScoreDistinct c q p.1 p.2)
  else none

/-- The search result pipeline exactly as the claim states it (distinct
query terms). -/
def searchSpecDistinct (c : Ext.DocsCache) (query : String) : List (String × String × Nat) :=
  (sortBy tupLe (c.components.filterMap (specTupleD c (lowerStr query)))).take 20

namespace Server

/-- The documentation store of `src/main.rs` (no index). -/
structure DocsCache where
  components : List (String × String)
deriving Repr

/-- Parser state of `DocsCache::load` in `src/main.rs`. -/
structure LoadState where
  components : List (String × String)
  curComp : String
  curContent : String

/-- Finalise the current entry (`src/main.rs`, `DocsCache::load`). -/
def flushEntry (st : LoadState) : LoadState :=
  { st with components := mapInsert st.components (lowerStr (trimStr st.curComp)) (trimStr st.curContent) }

/-- One iteration of the line loop of `DocsCache::load` in `src/main.rs`. -/
def loadLine (st : LoadState) (line : String) : LoadState :=
  match splitHeading line with
  | some stripped =>
    let st := if st.curComp ≠ "" then flushEntry st else st
    { st with curComp := stripped, curContent := line ++ "\n" }
  | none =>
    if st.curComp ≠ "" then { st with curContent := st.curContent ++ line ++ "\n" } else st

/-- `DocsCache::load` of `src/main.rs`, parameterised by the corpus lines. -/
def DocsCache.load (ls : List String) : DocsCache :=
  let st := ls.foldl loadLine ⟨[], "", ""⟩
  let st := if st.curComp ≠ "" then flushEntry st else st
  ⟨st.components⟩

/-- `DocsCache::list_components` of `src/main.rs`. -/
def DocsCache.list_components (c : DocsCache) : List String :=
  sortBy (fun a b => lexLe a.data b.data) (c.components.map Prod.fst)

/-- `DocsCache::get_doc` of `src/main.rs`: lookup of the lowercased name,
with no emptiness check and no trimming. -/
def DocsCache.get_doc (c : DocsCache) (name : String) : Option String :=
  alookup c.components (lowerStr name)

/-- `DocsCache::search` of `src/main.rs`: substring filter on key or
lowercased body, sorted by key ascending.  There is no empty-query guard. -/
def DocsCache.search (c : DocsCache) (query : String) : List (String × String) :=
  let q := lowerStr query
  sortBy (fun a b => lexLe a.1.data b.1.data)
    (c.components.filter (fun p => containsStr p.1 q || containsStr (lowerStr p.2) q))

/-- `DesignConcept` of `src/main.rs`. -/
structure DesignConcept where
  name : String
  description : String
  classes : List String
  suggestion : String
  snippet : String

/-- `ConceptEngine` of `src/main.rs`. -/
structure ConceptEngine where
  concepts : List (String × DesignConcept)

/-- `ConceptEngine::new` of `src/main.rs`: a single concept. -/
def ConceptEngine.new : ConceptEngine :=
  ⟨mapInsert [] "glassmorphism"
    { name := "Glassmorphism"
      description := "Transparency and blur."
      classes := ["glass", "backdrop-blur"]
      suggestion := "Use .glass on cards."
      snippet := "<div class=\"card glass\"></div>" }⟩

/-- `ConceptEngine::get_concept` of `src/main.rs` (no emptiness check). -/
def ConceptEngine.get_concept (e : ConceptEngine) (query : String) : Option DesignConcept :=
  alookup e.concepts (lowerStr query)

/-- `ConceptEngine::list_concepts` of `src/main.rs`. -/
def ConceptEngine.list_concepts (e : ConceptEngine) : List String :=
  sortBy (fun a b => lexLe a.data b.data) (e.concepts.map Prod.fst)

/-- Template function `saas_landing`. -/
def LayoutEngine.saas_landing (t : String) : String :=
  "\n<div class=\"min-h-screen bg-base-100 font-sans\">\n  <!-\x2d Navbar -\x2d>\n  <div class=\"navbar bg-base-100 sticky top-0 z-50 border-b border-base-200\">\n    <div class=\"flex-1\"><a class=\"btn btn-ghost text-xl font-bold\">" ++ t ++ "</a></div>\n    <div class=\"flex-none gap-2\">\n       <ul class=\"menu menu-horizontal px-1 hidden sm:flex\">\n         <li><a>Features</a></li>\n         <li><a>Pricing</a></li>\n         <li><a>Contact</a></li>\n       </ul>\n       <button class=\"btn btn-primary\">Get Started</button>\n    </div>\n  </div>\n\n  <!-\x2d Hero -\x2d>\n  <div class=\"hero min-h-[80vh] bg-base-200\">\n    <div class=\"hero-content text-center\">\n      <div class=\"max-w-2xl\">\n        <h1 class=\"text-5xl font-extrabold tracking-tight\">Build faster with <span class=\"text-primary\">Daisy Days</span></h1>\n        <p class=\"py-6 text-xl text-base-content/80\">The ultimate scaffolding engine for modern web applications. Stop writing boilerplate.</p>\n        <button class=\"btn btn-primary btn-lg\">Start Free Trial</button>\n        <button class=\"btn btn-ghost btn-lg ml-2\">Read Docs</button>\n      </div>\n    </div>\n  </div>\n\n  <!-\x2d Features Grid -\x2d>\n  <div class=\"py-24 bg-base-100\">\n    <div class=\"container mx-auto px-4\">\n      <h2 class=\"text-3xl font-bold text-center mb-12\">Everything you need</h2>\n      <div class=\"grid grid-cols-1 md:grid-cols-3 gap-8\">\n        <div class=\"card bg-base-200 shadow-sm border border-base-300\">\n          <div class=\"card-body\">\n             <div class=\"p-3 bg-primary/10 w-fit rounded-lg text-primary mb-2\">⚡</div>\n             <h3 class=\"card-title\">Lightning Fast</h3>\n             <p>Optimized for speed and performance out of the box.</p>\n          </div>\n        </div>\n        <div class=\"card bg-base-200 shadow-sm border border-base-300\">\n          <div class=\"card-body\">\n             <div class=\"p-3 bg-primary/10 w-fit rounded-lg text-primary mb-2\">🔒</div>\n             <h3 class=\"card-title\">Secure by Default</h3>\n             <p>Bank-grade security standards applied automatically.</p>\n          </div>\n        </div>\n        <div class=\"card bg-base-200 shadow-sm border border-base-300\">\n          <div class=\"card-body\">\n             <div class=\"p-3 bg-primary/10 w-fit rounded-lg text-primary mb-2\">🎨</div>\n             <h3 class=\"card-title\">Themable</h3>\n             <p>Change the look and feel in seconds with DaisyUI themes.</p>\n          </div>\n        </div>\n      </div>\n    </div>\n  </div>\n\n  <!-\x2d Footer -\x2d>\n  <footer class=\"footer p-10 bg-base-300 text-base-content\">\n    <nav>\n      <header class=\"footer-title\">Services</header> \n      <a class=\"link link-hover\">Branding</a>\n      <a class=\"link link-hover\">Design</a>\n    </nav> \n    <nav>\n      <header class=\"footer-title\">Company</header> \n      <a class=\"link link-hover\">About us</a>\n      <a class=\"link link-hover\">Contact</a>\n    </nav> \n    <nav>\n      <header class=\"footer-title\">Legal</header> \n      <a class=\"link link-hover\">Terms of use</a>\n      <a class=\"link link-hover\">Privacy policy</a>\n    </nav>\n  </footer>\n</div>\n"

/-- Template function `blog_layout`. -/
def LayoutEngine.blog_layout (t : String) : String :=
  "\n<div class=\"min-h-screen bg-base-100\">\n  <div class=\"navbar bg-base-100 border-b border-base-200\">\n    <div class=\"container mx-auto\">\n      <div class=\"flex-1\"><a class=\"btn btn-ghost text-2xl font-serif\">" ++ t ++ "</a></div>\n      <div class=\"flex-none\"><button class=\"btn btn-ghost btn-circle\"><svg xmlns=\"http://www.w3.org/2000/svg\" class=\"h-5 w-5\" fill=\"none\" viewBox=\"0 0 24 24\" stroke=\"currentColor\"><path stroke-linecap=\"round\" stroke-linejoin=\"round\" stroke-width=\"2\" d=\"M21 21l-6-6m2-5a7 7 0 11-14 0 7 7 0 0114 0z\" /></svg></button></div>\n    </div>\n  </div>\n\n  <div class=\"container mx-auto px-4 py-12\">\n    <!-\x2d Featured -\x2d>\n    <div class=\"card lg:card-side bg-base-200 shadow-xl mb-16\">\n      <figure class=\"lg:w-1/2\"><img src=\"https://img.daisyui.com/images/stock/photo-1494232410401-ad00d5433cfa.jpg\" class=\"h-full object-cover\" /></figure>\n      <div class=\"card-body lg:w-1/2 justify-center\">\n        <h2 class=\"card-title text-4xl mb-4 font-serif\">The Future of AI Design</h2>\n        <p class=\"text-lg\">How artificial intelligence is reshaping the way we build interfaces.</p>\n        <div class=\"card-actions justify-start mt-4\">\n          <button class=\"btn btn-primary\">Read Article</button>\n        </div>\n      </div>\n    </div>\n\n    <div class=\"flex flex-col lg:flex-row gap-12\">\n      <!-\x2d Main Content -\x2d>\n      <div class=\"lg:w-2/3\">\n         <h3 class=\"text-2xl font-bold mb-6 border-b border-base-300 pb-2\">Latest Stories</h3>\n         <div class=\"flex flex-col gap-8\">\n            <!-\x2d Post -\x2d>\n            <div class=\"flex gap-6 items-start\">\n               <img src=\"https://img.daisyui.com/images/stock/photo-1559181567-c3190ca9959b.jpg\" class=\"w-32 h-32 rounded-xl object-cover\" />\n               <div>\n                  <div class=\"badge badge-ghost mb-2\">Tech</div>\n                  <h4 class=\"text-xl font-bold hover:text-primary cursor-pointer\">Rust vs Go in 2025</h4>\n                  <p class=\"text-base-content/70 mt-2\">A deep dive into system performance.</p>\n                  <div class=\"text-sm mt-2 opacity-50\">Dec 9 • 5 min read</div>\n               </div>\n            </div>\n            <!-\x2d Post -\x2d>\n             <div class=\"flex gap-6 items-start\">\n               <img src=\"https://img.daisyui.com/images/stock/photo-1601004890684-d8cbf643f5f2.jpg\" class=\"w-32 h-32 rounded-xl object-cover\" />\n               <div>\n                  <div class=\"badge badge-ghost mb-2\">Lifestyle</div>\n                  <h4 class=\"text-xl font-bold hover:text-primary cursor-pointer\">Digital Minimalism</h4>\n                  <p class=\"text-base-content/70 mt-2\">Reclaiming your attention span.</p>\n                  <div class=\"text-sm mt-2 opacity-50\">Dec 8 • 3 min read</div>\n               </div>\n            </div>\n         </div>\n      </div>\n\n      <!-\x2d Sidebar -\x2d>\n      <div class=\"lg:w-1/3\">\n         <div class=\"card bg-base-200 p-6 mb-6\">\n            <h3 class=\"font-bold text-lg mb-4\">Newsletter</h3>\n            <p class=\"text-sm mb-4\">Get the latest posts delivered right to your inbox.</p>\n            <div class=\"join w-full\">\n              <input class=\"input input-bordered join-item w-full\" placeholder=\"Email\"/>\n              <button class=\"btn btn-primary join-item\">Subscribe</button>\n            </div>\n         </div>\n         \n         <div class=\"mb-6\">\n           <h3 class=\"font-bold text-lg mb-4\">Categories</h3>\n           <div class=\"flex flex-wrap gap-2\">\n             <div class=\"badge badge-outline p-3\">Technology</div>\n             <div class=\"badge badge-outline p-3\">Design</div>\n             <div class=\"badge badge-outline p-3\">Culture</div>\n             <div class=\"badge badge-outline p-3\">Business</div>\n           </div>\n         </div>\n      </div>\n    </div>\n  </div>\n</div>\n"

/-- Template function `social_feed`. -/
def LayoutEngine.social_feed (t : String) : String :=
  "\n<div class=\"min-h-screen bg-base-100 flex justify-center\">\n  <!-\x2d Left Sidebar -\x2d>\n  <div class=\"w-64 hidden lg:block p-4 fixed left-0 top-0 h-screen border-r border-base-200 overflow-y-auto\">\n    <div class=\"text-2xl font-bold text-primary p-4 mb-4\">" ++ t ++ "</div>\n    <ul class=\"menu w-full text-lg\">\n      <li><a class=\"active\"><svg xmlns=\"http://www.w3.org/2000/svg\" class=\"h-6 w-6\" fill=\"none\" viewBox=\"0 0 24 24\" stroke=\"currentColor\"><path stroke-linecap=\"round\" stroke-linejoin=\"round\" stroke-width=\"2\" d=\"M3 12l2-2m0 0l7-7 7 7M5 10v10a1 1 0 001 1h3m10-11l2 2m-2-2v10a1 1 0 01-1 1h-3m-6 0a1 1 0 001-1v-4a1 1 0 011-1h2a1 1 0 011 1v4a1 1 0 001 1m-6 0h6\"/></svg> Home</a></li>\n      <li><a><svg xmlns=\"http://www.w3.org/2000/svg\" class=\"h-6 w-6\" fill=\"none\" viewBox=\"0 0 24 24\" stroke=\"currentColor\"><path stroke-linecap=\"round\" stroke-linejoin=\"round\" stroke-width=\"2\" d=\"M15 17h5l-1.405-1.405A2.032 2.032 0 0118 14.158V11a6.002 6.002 0 00-4-5.659V5a2 2 0 10-4 0v.341C7.67 6.165 6 8.388 6 11v3.159c0 .538-.214 1.055-.595 1.436L4 17h5m6 0v1a3 3 0 11-6 0v-1m6 0H9\"/></svg> Notifications</a></li>\n      <li><a><svg xmlns=\"http://www.w3.org/2000/svg\" class=\"h-6 w-6\" fill=\"none\" viewBox=\"0 0 24 24\" stroke=\"currentColor\"><path stroke-linecap=\"round\" stroke-linejoin=\"round\" stroke-width=\"2\" d=\"M3 8l7.89 5.26a2 2 0 002.22 0L21 8M5 19h14a2 2 0 002-2V7a2 2 0 00-2-2H5a2 2 0 00-2 2v10a2 2 0 002 2z\"/></svg> Messages</a></li>\n      <li><a><svg xmlns=\"http://www.w3.org/2000/svg\" class=\"h-6 w-6\" fill=\"none\" viewBox=\"0 0 24 24\" stroke=\"currentColor\"><path stroke-linecap=\"round\" stroke-linejoin=\"round\" stroke-width=\"2\" d=\"M16 7a4 4 0 11-8 0 4 4 0 018 0zM12 14a7 7 0 00-7 7h14a7 7 0 00-7-7z\"/></svg> Profile</a></li>\n    </ul>\n    <button class=\"btn btn-primary w-full rounded-full mt-8\">Post</button>\n  </div>\n\n  <!-\x2d Main Feed -\x2d>\n  <div class=\"w-full lg:w-[600px] border-r border-l border-base-200 min-h-screen\">\n    <div class=\"sticky top-0 bg-base-100/80 backdrop-blur z-20 border-b border-base-200 p-4 font-bold text-xl\">Home</div>\n    <!-\x2d Composer -\x2d>\n    <div class=\"p-4 border-b border-base-200 flex gap-4\">\n       <div class=\"avatar\"><div class=\"w-12 rounded-full\"><img src=\"https://img.daisyui.com/images/stock/photo-1534528741775-53994a69daeb.jpg\" /></div></div>\n       <div class=\"w-full\">\n         <textarea class=\"textarea textarea-ghost w-full text-lg resize-none\" placeholder=\"What is happening?\"></textarea>\n         <div class=\"flex justify-end\"><button class=\"btn btn-primary btn-sm rounded-full\">Tweet</button></div>\n       </div>\n    </div>\n    <!-\x2d Posts -\x2d>\n    <div class=\"p-4 border-b border-base-200 hover:bg-base-200/50 cursor-pointer transition\">\n       <div class=\"flex gap-4\">\n         <div class=\"avatar\"><div class=\"w-12 rounded-full\"><img src=\"https://img.daisyui.com/images/stock/photo-1606107557195-0e29a4b5b4aa.jpg\" /></div></div>\n         <div>\n            <div class=\"flex gap-2 items-center\"><span class=\"font-bold\">Jane Doe</span> <span class=\"text-sm opacity-50\">@janedoe • 2h</span></div>\n            <p class=\"mt-1\">Just shipped a new update for my MCP server! Rust is blazing fast. 🦀🚀</p>\n            <div class=\"flex justify-between mt-3 max-w-sm text-sm opacity-60\">\n               <button class=\"hover:text-primary\">💬 12</button>\n               <button class=\"hover:text-green-500\">♻️ 4</button>\n               <button class=\"hover:text-red-500\">❤️ 89</button>\n            </div>\n         </div>\n       </div>\n    </div>\n    <div class=\"p-4 border-b border-base-200 hover:bg-base-200/50 cursor-pointer transition\">\n       <div class=\"flex gap-4\">\n         <div class=\"avatar\"><div class=\"w-12 rounded-full\"><img src=\"https://img.daisyui.com/images/stock/photo-1559181567-c3190ca9959b.jpg\" /></div></div>\n         <div>\n            <div class=\"flex gap-2 items-center\"><span class=\"font-bold\">Tech Insider</span> <span class=\"text-sm opacity-50\">@tech • 4h</span></div>\n            <p class=\"mt-1\">DaisyUI 5.0 is coming soon. Are you ready?</p>\n         </div>\n       </div>\n    </div>\n  </div>\n\n  <!-\x2d Right Sidebar -\x2d>\n  <div class=\"hidden xl:block w-80 p-4 fixed right-0 top-0 h-screen\">\n     <div class=\"card bg-base-200\">\n        <div class=\"card-body p-4\">\n           <h3 class=\"font-bold text-lg mb-2\">Trends for you</h3>\n           <div class=\"py-2\">\n             <div class=\"text-xs opacity-50\">Technology</div>\n             <div class=\"font-bold\">#RustLang</div>\n             <div class=\"text-xs opacity-50\">12K Posts</div>\n           </div>\n           <div class=\"py-2\">\n             <div class=\"text-xs opacity-50\">Design</div>\n             <div class=\"font-bold\">#UIUX</div>\n             <div class=\"text-xs opacity-50\">8K Posts</div>\n           </div>\n        </div>\n     </div>\n  </div>\n</div>\n"

/-- Template function `kanban_board`. -/
def LayoutEngine.kanban_board (t : String) : String :=
  "\n<div class=\"h-screen flex flex-col bg-base-200\">\n  <div class=\"navbar bg-base-100 shadow-sm px-4\">\n    <div class=\"flex-1\"><h1 class=\"text-xl font-bold\">" ++ t ++ "</h1></div>\n     <div class=\"flex-none gap-2\">\n        <div class=\"avatar-group -space-x-6\">\n          <div class=\"avatar\"><div class=\"w-8\"><img src=\"https://img.daisyui.com/images/stock/photo-1534528741775-53994a69daeb.jpg\" /></div></div>\n          <div class=\"avatar\"><div class=\"w-8\"><img src=\"https://img.daisyui.com/images/stock/photo-1606107557195-0e29a4b5b4aa.jpg\" /></div></div>\n          <div class=\"avatar placeholder\"><div class=\"w-8 bg-neutral text-neutral-content\"><span>+2</span></div></div>\n        </div>\n        <button class=\"btn btn-primary btn-sm\">Share</button>\n     </div>\n  </div>\n\n  <div class=\"flex-1 overflow-x-auto p-6\">\n    <div class=\"flex gap-6 h-full\">\n       <!-\x2d Lane: Todo -\x2d>\n       <div class=\"w-80 shrink-0 flex flex-col gap-3\">\n          <div class=\"flex justify-between items-center px-1\">\n             <h3 class=\"font-bold uppercase text-sm opacity-70\">To Do</h3>\n             <span class=\"badge badge-sm\">3</span>\n          </div>\n          <div class=\"card bg-base-100 shadow-sm p-4 cursor-pointer hover:shadow-md\">\n             <div class=\"badge badge-warning text-xs mb-2\">Design</div>\n             <p class=\"font-semibold\">Create high-fidelity mockups</p>\n          </div>\n          <div class=\"card bg-base-100 shadow-sm p-4 cursor-pointer hover:shadow-md\">\n             <p class=\"font-semibold\">Research competitor market</p>\n             <div class=\"mt-3 flex justify-between items-center\">\n                <div class=\"avatar w-6 rounded-full\"><img src=\"https://img.daisyui.com/images/stock/photo-1534528741775-53994a69daeb.jpg\"/></div>\n                <span class=\"text-xs opacity-50\">Dec 12</span>\n             </div>\n          </div>\n          <button class=\"btn btn-ghost btn-block text-base-content/50\">+ Add Task</button>\n       </div>\n\n       <!-\x2d Lane: In Progress -\x2d>\n       <div class=\"w-80 shrink-0 flex flex-col gap-3\">\n          <div class=\"flex justify-between items-center px-1\">\n             <h3 class=\"font-bold uppercase text-sm opacity-70\">In Progress</h3>\n             <span class=\"badge badge-sm\">1</span>\n          </div>\n          <div class=\"card bg-base-100 shadow-sm p-4 cursor-pointer hover:shadow-md\">\n             <div class=\"badge badge-info text-xs mb-2\">Dev</div>\n             <p class=\"font-semibold\">Implement Authentication</p>\n             <progress class=\"progress progress-primary w-full mt-2\" value=\"40\" max=\"100\"></progress>\n          </div>\n          <button class=\"btn btn-ghost btn-block text-base-content/50\">+ Add Task</button>\n       </div>\n\n       <!-\x2d Lane: Done -\x2d>\n       <div class=\"w-80 shrink-0 flex flex-col gap-3\">\n          <div class=\"flex justify-between items-center px-1\">\n             <h3 class=\"font-bold uppercase text-sm opacity-70\">Done</h3>\n             <span class=\"badge badge-sm\">2</span>\n          </div>\n          <div class=\"card bg-base-100 shadow-sm p-4 opacity-60\">\n             <p class=\"font-semibold line-through\">Setup Repo</p>\n          </div>\n       </div>\n    </div>\n  </div>\n</div>\n"

/-- Template function `inbox_layout`. -/
def LayoutEngine.inbox_layout (t : String) : String :=
  "\n<div class=\"h-screen flex bg-base-100\">\n  <!-\x2d Sidebar -\x2d>\n  <div class=\"w-64 border-r border-base-200 flex flex-col\">\n     <div class=\"p-4 flex items-center gap-2 font-bold text-xl\"><div class=\"badge badge-primary badge-lg\">M</div> " ++ t ++ "</div>\n     <div class=\"p-4\"><button class=\"btn btn-primary btn-block gap-2\"><svg xmlns=\"http://www.w3.org/2000/svg\" class=\"h-5 w-5\" viewBox=\"0 0 20 20\" fill=\"currentColor\"><path d=\"M13.586 3.586a2 2 0 112.828 2.828l-.793.793-2.828-2.828.793-.793zM11.379 5.793L3 14.172V17h2.828l8.38-8.379-2.83-2.828z\" /></svg> Compose</button></div>\n     <ul class=\"menu flex-1 p-2\">\n       <li><a class=\"active\">Inbox <span class=\"badge badge-sm bg-base-100\">4</span></a></li>\n       <li><a>Starred</a></li>\n       <li><a>Sent</a></li>\n       <li><a>Drafts</a></li>\n     </ul>\n  </div>\n\n  <!-\x2d List -\x2d>\n  <div class=\"w-80 border-r border-base-200 overflow-y-auto\">\n     <div class=\"p-4 border-b border-base-200 sticky top-0 bg-base-100 z-10\">\n        <input type=\"text\" placeholder=\"Search mail\" class=\"input input-sm input-bordered w-full\" />\n     </div>\n     <div class=\"divide-y divide-base-200\">\n        <div class=\"p-4 hover:bg-base-200 cursor-pointer bg-base-200/50\">\n           <div class=\"flex justify-between mb-1\"><span class=\"font-bold\">Apple</span> <span class=\"text-xs opacity-50\">10:00 AM</span></div>\n           <div class=\"font-semibold truncate\">Your receipt for...</div>\n           <div class=\"text-sm opacity-60 truncate\">Thank you for your purchase of...</div>\n        </div>\n        <div class=\"p-4 hover:bg-base-200 cursor-pointer\">\n           <div class=\"flex justify-between mb-1\"><span class=\"font-bold\">Github</span> <span class=\"text-xs opacity-50\">Yesterday</span></div>\n           <div class=\"font-semibold truncate\">Security alert</div>\n           <div class=\"text-sm opacity-60 truncate\">A new vulnerability was found...</div>\n        </div>\n     </div>\n  </div>\n\n  <!-\x2d View -\x2d>\n  <div class=\"flex-1 flex flex-col\">\n     <div class=\"p-6 border-b border-base-200 flex justify-between items-center\">\n        <div>\n           <h2 class=\"text-2xl font-bold\">Your receipt for iCloud+</h2>\n           <div class=\"flex gap-2 items-center mt-2\">\n              <div class=\"avatar w-8 rounded-full bg-neutral text-neutral-content grid place-items-center\">A</div>\n              <div class=\"text-sm\"><span class=\"font-bold\">Apple</span> &lt;no-reply@apple.com&gt;</div>\n           </div>\n        </div>\n        <div class=\"flex gap-2\">\n           <button class=\"btn btn-ghost btn-sm\">Reply</button>\n           <button class=\"btn btn-ghost btn-sm\">Delete</button>\n        </div>\n     </div>\n     <div class=\"p-8 flex-1 overflow-y-auto\">\n        <p>Hello Ahmad,</p>\n        <p class=\"mt-4\">This email confirms your subscription was renewed successfully.</p>\n        <div class=\"card bg-base-200 max-w-sm mt-8 p-4\">\n           <div class=\"flex justify-between font-bold\"><span>Total</span> <span>$0.99</span></div>\n        </div>\n     </div>\n  </div>\n</div>\n"

/-- Template function `settings_profile`. -/
def LayoutEngine.settings_profile (t : String) : String :=
  "\n<div class=\"min-h-screen bg-base-200 p-4 md:p-8\">\n  <div class=\"max-w-4xl mx-auto\">\n     <h1 class=\"text-3xl font-bold mb-8\">" ++ t ++ "</h1>\n     <div class=\"flex flex-col md:flex-row gap-6\">\n        <!-\x2d Sidebar -\x2d>\n        <div class=\"w-full md:w-64 shrink-0\">\n           <ul class=\"menu bg-base-100 rounded-box w-full shadow-sm\">\n             <li><a class=\"active\">General</a></li>\n             <li><a>Account</a></li>\n             <li><a>Notifications</a></li>\n             <li><a>Billing</a></li>\n             <li><a class=\"text-error\">Danger Zone</a></li>\n           </ul>\n        </div>\n\n        <!-\x2d Content -\x2d>\n        <div class=\"flex-1\">\n           <div class=\"card bg-base-100 shadow-sm\">\n             <div class=\"card-body\">\n                <h2 class=\"card-title mb-4\">Profile Information</h2>\n                <div class=\"flex items-center gap-4 mb-6\">\n                   <div class=\"avatar placeholder\">\n                      <div class=\"bg-neutral text-neutral-content rounded-full w-24\">\n                        <span class=\"text-3xl\">AH</span>\n                      </div>\n                   </div>\n                   <div>\n                      <button class=\"btn btn-sm btn-outline\">Change Avatar</button>\n                      <button class=\"btn btn-sm btn-ghost text-error\">Remove</button>\n                   </div>\n                </div>\n\n                <div class=\"grid gap-4\">\n                   <div class=\"form-control\">\n                      <label class=\"label\">Display Name</label>\n                      <input type=\"text\" value=\"Ahmad Hamdi\" class=\"input input-bordered\" />\n                   </div>\n                   <div class=\"form-control\">\n                      <label class=\"label\">Email Address</label>\n                      <input type=\"email\" value=\"ahmad@example.com\" class=\"input input-bordered\" />\n                   </div>\n                   <div class=\"form-control\">\n                      <label class=\"label\">Bio</label>\n                      <textarea class=\"textarea textarea-bordered h-24\">Just shipping code.</textarea>\n                   </div>\n                </div>\n\n                <div class=\"card-actions justify-end mt-6\">\n                   <button class=\"btn btn-primary\">Save Changes</button>\n                </div>\n             </div>\n           </div>\n\n           <div class=\"card bg-base-100 shadow-sm mt-6\">\n             <div class=\"card-body\">\n                <h2 class=\"card-title\">Preferences</h2>\n                <div class=\"form-control\">\n                  <label class=\"label cursor-pointer justify-start gap-4\">\n                    <input type=\"checkbox\" class=\"toggle toggle-primary\" checked />\n                    <span class=\"label-text\">Enable email notifications</span>\n                  </label>\n                </div>\n             </div>\n           </div>\n        </div>\n     </div>\n  </div>\n</div>\n"

/-- Template function `docs_layout`. -/
def LayoutEngine.docs_layout (t : String) : String :=
  "\n<div class=\"drawer lg:drawer-open\">\n  <input id=\"my-drawer-2\" type=\"checkbox\" class=\"drawer-toggle\" />\n  <div class=\"drawer-content flex flex-col\">\n    <!-\x2d Navbar -\x2d>\n    <div class=\"navbar bg-base-100 border-b border-base-200 lg:hidden\">\n      <div class=\"flex-none\">\n        <label for=\"my-drawer-2\" class=\"btn btn-square btn-ghost\">\n          <svg xmlns=\"http://www.w3.org/2000/svg\" fill=\"none\" viewBox=\"0 0 24 24\" class=\"inline-block w-6 h-6 stroke-current\"><path stroke-linecap=\"round\" stroke-linejoin=\"round\" stroke-width=\"2\" d=\"M4 6h16M4 12h16M4 18h16\"></path></svg>\n        </label>\n      </div>\n      <div class=\"flex-1 px-2 mx-2 text-xl font-bold\">" ++ t ++ "</div>\n    </div>\n    \n    <!-\x2d Main Content -\x2d>\n    <div class=\"p-8 md:p-12 max-w-4xl mx-auto w-full\">\n       <div class=\"text-sm breadcrumbs mb-4\">\n          <ul><li><a>Docs</a></li><li><a>Getting Started</a></li><li>Installation</li></ul>\n       </div>\n       <h1 class=\"text-4xl font-bold mb-6\">Installation</h1>\n       <p class=\"mb-4 text-lg\">Learn how to get up and running with our library in minutes.</p>\n       \n       <div class=\"mockup-code mb-6\">\n         <pre data-prefix=\"$\"><code>npm install daisy-framework</code></pre>\n       </div>\n\n       <h2 class=\"text-2xl font-bold mt-8 mb-4\">Configuration</h2>\n       <p class=\"mb-4\">Add the plugin to your config file:</p>\n       <p class=\"mb-4\">Lorem ipsum dolor sit amet, consectetur adipiscing elit. Sed do eiusmod tempor incididunt ut labore et dolore magna aliqua.</p>\n       \n       <div class=\"alert alert-info mt-8\">\n         <svg xmlns=\"http://www.w3.org/2000/svg\" fill=\"none\" viewBox=\"0 0 24 24\" class=\"stroke-current shrink-0 w-6 h-6\"><path stroke-linecap=\"round\" stroke-linejoin=\"round\" stroke-width=\"2\" d=\"M13 16h-1v-4h-1m1-4h.01M21 12a9 9 0 11-18 0 9 9 0 0118 0z\"></path></svg>\n         <span>Note: Typically requires Node.js 18+.</span>\n       </div>\n    </div>\n  </div> \n  <div class=\"drawer-side border-r border-base-200\">\n    <label for=\"my-drawer-2\" class=\"drawer-overlay\"></label> \n    <ul class=\"menu p-4 w-80 min-h-full bg-base-100 text-base-content\">\n      <li class=\"mb-4 text-xl font-bold px-4\">" ++ t ++ " Docs</li>\n      <li>\n        <h2 class=\"menu-title\">Getting Started</h2>\n        <ul>\n          <li><a class=\"active\">Installation</a></li>\n          <li><a>Usage</a></li>\n          <li><a>Theming</a></li>\n        </ul>\n      </li>\n      <li>\n        <h2 class=\"menu-title\">Components</h2>\n        <ul>\n          <li><a>Button</a></li>\n          <li><a>Card</a></li>\n          <li><a>Modal</a></li>\n        </ul>\n      </li>\n    </ul>\n  </div>\n</div>\n"

/-- Template function `dashboard`. -/
def LayoutEngine.dashboard (t : String) : String :=
  "<div class=\"drawer lg:drawer-open\"><input id=\"my-drawer\" type=\"checkbox\" class=\"drawer-toggle\" /><div class=\"drawer-content flex flex-col\"><div class=\"w-full navbar bg-base-300\"><div class=\"flex-none lg:hidden\"><label for=\"my-drawer\" class=\"btn btn-square btn-ghost\"><svg xmlns=\"http://www.w3.org/2000/svg\" fill=\"none\" viewBox=\"0 0 24 24\" class=\"inline-block w-6 h-6 stroke-current\"><path stroke-linecap=\"round\" stroke-linejoin=\"round\" stroke-width=\"2\" d=\"M4 6h16M4 12h16M4 18h16\"></path></svg></label></div><div class=\"flex-1 px-2 mx-2 text-xl font-bold\">" ++ t ++ "</div></div><div class=\"p-6\"><h2 class=\"text-2xl font-bold mb-4\">Dashboard</h2></div></div><div class=\"drawer-side\"><label for=\"my-drawer\" class=\"drawer-overlay\"></label><ul class=\"menu p-4 w-80 min-h-full bg-base-200 text-base-content\"><li class=\"menu-title\">Menu</li><li><a>Overview</a></li></ul></div></div>"

/-- Template function `auth_page`. -/
def LayoutEngine.auth_page (t : String) : String :=
  "<div class=\"hero min-h-screen bg-base-200\"><div class=\"card shrink-0 w-full max-w-sm shadow-2xl bg-base-100\"><form class=\"card-body\"><h1 class=\"text-2xl font-bold\">" ++ t ++ "</h1><div class=\"form-control\"><label class=\"label\"><span class=\"label-text\">Email</span></label><input type=\"email\" class=\"input input-bordered\" required /></div><div class=\"form-control\"><label class=\"label\"><span class=\"label-text\">Password</span></label><input type=\"password\" class=\"input input-bordered\" required /></div><div class=\"form-control mt-6\"><button class=\"btn btn-primary\">Login</button></div></form></div></div>"

/-- Template function `store_page`. -/
def LayoutEngine.store_page (t : String) : String :=
  "<div class=\"hero min-h-screen bg-base-200\"><div class=\"hero-content text-center\"><div class=\"max-w-md\"><h1 class=\"text-5xl font-bold\">" ++ t ++ "</h1><button class=\"btn btn-primary mt-4\">Shop Now</button></div></div></div>"

/-- `LayoutEngine::generate` of `src/main.rs`: dispatch on the layout name,
defaulting to the saas landing page.  No sanitisation happens here. -/
def LayoutEngine.generate (layout title : String) : String :=
  if layout = "saas" then LayoutEngine.saas_landing title
  else if layout = "blog" then LayoutEngine.blog_layout title
  else if layout = "social" then LayoutEngine.social_feed title
  else if layout = "kanban" then LayoutEngine.kanban_board title
  else if layout = "inbox" then LayoutEngine.inbox_layout title
  else if layout = "profile" then LayoutEngine.settings_profile title
  else if layout = "docs" then LayoutEngine.docs_layout title
  else if layout = "dashboard" then LayoutEngine.dashboard title
  else if layout = "auth" then LayoutEngine.auth_page title
  else if layout = "store" then LayoutEngine.store_page title
  else LayoutEngine.saas_landing title

/-- `IdeaEngine::process_prompt` of `src/main.rs`: keyword dispatch from a
lowercased prompt to a layout, rendered with the fixed title. -/
def IdeaEngine.process_prompt (prompt : String) : String :=
  let p := lowerStr prompt
  let layout :=
    if containsStr p "blog" || containsStr p "article" || containsStr p "news" then "blog"
    else if containsStr p "social" || containsStr p "twitter" || containsStr p "feed" then "social"
    else if containsStr p "kanban" || containsStr p "trello" || containsStr p "board" || containsStr p "task" then "kanban"
    else if containsStr p "mail" || containsStr p "inbox" || containsStr p "message" then "inbox"
    else if containsStr p "profile" || containsStr p "settings" || containsStr p "account" then "profile"
    else if containsStr p "docs" || containsStr p "documentation" || containsStr p "wiki" then "docs"
    else if containsStr p "saas" || containsStr p "startup" || containsStr p "landing" then "saas"
    else if containsStr p "dashboard" || containsStr p "admin" then "dashboard"
    else "saas"
  LayoutEngine.generate layout "Generated UI"

/-- Legacy wrapper `generate_dashboard` of `src/main.rs`. -/
def generate_dashboard (title : String) (_items : List String) (_style : String) : String :=
  LayoutEngine.generate "dashboard" title

/-- Legacy wrapper `generate_auth` of `src/main.rs`. -/
def generate_auth (auth_type : String) : String :=
  LayoutEngine.generate "auth" (if auth_type = "login" then "Login" else "Sign Up")

/-- Legacy wrapper `generate_store` of `src/main.rs`. -/
def generate_store (page : String) : String :=
  LayoutEngine.generate "store" page

/-- `generate_theme` of `src/main.rs`. -/
def generate_theme (name primary secondary accent base : String) : String :=
  "@plugin \"daisyui/theme\" \x7b name: \"" ++ name ++ "\"; -\x2dcolor-primary: " ++ primary ++
    "; -\x2dcolor-secondary: " ++ secondary ++ "; -\x2dcolor-accent: " ++ accent ++
    "; -\x2dcolor-base-100: " ++ base ++ "; \x7d"

/-- `get_script` of `src/main.rs`. -/
def get_script (component : String) : String :=
  if component = "modal" then "document.getElementById(\x27my_modal_1\x27).showModal();"
  else if component = "drawer" then
    "document.getElementById(\x27my-drawer\x27).checked = !document.getElementById(\x27my-drawer\x27).checked;"
  else "// No script"

/-- `create_chart` of `src/main.rs`. -/
def create_chart (chart_type id : String) : String :=
  "<canvas id=\"" ++ id ++ "\"></canvas><script>new Chart(document.getElementById(\x27" ++ id ++
    "\x27), \x7b type: \x27" ++ chart_type ++
    "\x27, data: \x7b datasets: [\x7b data: [10, 20] \x7d] \x7d \x7d);</script>"

/-- `create_complex_table` of `src/main.rs`. -/
def create_complex_table (cols : List String) : String :=
  let headers := String.join (cols.map (fun c => "<th>" ++ c ++ "</th>"))
  "<table class=\"table w-full\"><thead><tr>" ++ headers ++
    "</tr></thead><tbody><tr><td>Data</td></tr></tbody></table>"

end Server

namespace Server

/-- JSON values (`serde_json::Value`); numbers restricted to the integers
the program uses. -/
inductive Json where
  | null : Json
  | bool (b : Bool) : Json
  | num (n : Int) : Json
  | str (s : String) : Json
  | arr (xs : List Json) : Json
  | obj (fields : List (String × Json)) : Json

/-- `value[key]` of `serde_json`: member of an object, `Null` otherwise. -/
def jGet (j : Json) (key : String) : Json :=
  match j with
  | .obj fields => (alookup fields key).getD .null
  | _ => .null

/-- `Value::as_str`. -/
def asStr : Json → Option String
  | .str s => some s
  | _ => none

/-- `Value::as_object`. -/
def asObj : Json → Option (List (String × Json))
  | .obj fields => some fields
  | _ => none

/-- `JsonRpcRequest` of `src/main.rs`. -/
structure JsonRpcRequest where
  jsonrpc : String
  method : String
  params : Option Json
  id : Option Json

/-- `JsonRpcError` of `src/main.rs`. -/
structure JsonRpcError where
  code : Int
  message : String
  data : Option Json

/-- `JsonRpcResponse` of `src/main.rs`.  The invariant that exactly one of
`result`/`error` is set is maintained by `mkResponse`. -/
structure JsonRpcResponse where
  jsonrpc : String
  result : Option Json
  error : Option JsonRpcError
  id : Option Json

/-- `args.and_then(|a| a.get(key)).and_then(|v| v.as_str()).unwrap_or(dflt)`,
the argument-extraction idiom of every tool handler. -/
def getArgStr (args : Option (List (String × Json))) (key dflt : String) : String :=
  ((args.bind (fun a => alookup a key)).bind asStr).getD dflt

/-- `json!({ "content": [{ "type": "text", "text": s }] })`, the payload
shape of every tool result. -/
def textContent (s : String) : Json :=
  .obj [("content", .arr [.obj [("type", .str "text"), ("text", .str s)]])]

/-- Rust `Debug` escaping for the strings occurring in concepts. -/
def debugEscape (s : String) : String :=
  ⟨s.data.foldr
    (fun c acc =>
      if c = '"' then '\\' :: '"' :: acc
      else if c = '\\' then '\\' :: '\\' :: acc
      else c :: acc)
    []⟩

/-- Rust `Debug` rendering of a string. -/
def dbgStr (s : String) : String := "\"" ++ debugEscape s ++ "\""

/-- Rust `Debug` rendering of a `Vec<String>`. -/
def dbgStrList (l : List String) : String :=
  "[" ++ String.intercalate ", " (l.map dbgStr) ++ "]"

/-- Rust `Debug` rendering of a `DesignConcept`. -/
def DesignConcept.rustDebug (c : DesignConcept) : String :=
  "DesignConcept \x7b name: " ++ dbgStr c.name ++ ", description: " ++ dbgStr c.description ++
    ", classes: " ++ dbgStrList c.classes ++ ", suggestion: " ++ dbgStr c.suggestion ++
    ", snippet: " ++ dbgStr c.snippet ++ " \x7d"

/-- `format!("{:?}", concepts.get_concept(c))`. -/
def dbgConceptOpt : Option DesignConcept → String
  | none => "None"
  | some c => "Some(" ++ c.rustDebug ++ ")"

/-- The `initialize` result payload of `src/main.rs`. -/
def initializeResult : Json :=
  .obj
    [("protocolVersion", .str "0.1"),
     ("serverInfo",
       .obj [("name", .str "daisy-days"), ("version", .str "1.1.0 (Author: Ahmad Hamdi)")]),
     ("capabilities",
       .obj
         [("tools", .obj [("listChanged", .bool false)]),
          ("resources", .obj [("listChanged", .bool false)])])]

/-- A property entry `{"type": ty}` of a tool input schema. -/
def propTy (ty : String) : Json := .obj [("type", .str ty)]

/-- An input schema with properties only. -/
def schemaOf (props : List (String × Json)) : Json :=
  .obj [("type", .str "object"), ("properties", .obj props)]

/-- An input schema with properties and a `required` list. -/
def schemaReq (props : List (String × Json)) (req : List String) : Json :=
  .obj [("type", .str "object"), ("properties", .obj props), ("required", .arr (req.map .str))]

/-- One tool entry of the `tools/list` payload. -/
def toolEntry (name descr : String) (schema : Json) : Json :=
  .obj [("name", .str name), ("description", .str descr), ("inputSchema", schema)]

/-- The `tools/list` result payload of `src/main.rs`, the discovery
catalog. -/
def toolsListResult : Json :=
  .obj
    [("tools",
      .arr
        [toolEntry "daisyui_idea_to_ui" "Turn a prompt into a stunning UI."
          (schemaReq [("prompt", propTy "string")] ["prompt"]),
         toolEntry "daisyui_scaffold_layout" "Generate a modern web layout skeleton."
          (schemaReq
            [("layout",
              .obj
                [("type", .str "string"),
                 ("enum",
                   .arr
                     [.str "saas", .str "blog", .str "social", .str "kanban", .str "inbox",
                      .str "profile", .str "docs", .str "dashboard", .str "auth"]),
                 ("description", .str "Layout type")]),
             ("title", propTy "string")]
            ["layout"]),
         toolEntry "daisyui_list_components" "List components." (schemaOf []),
         toolEntry "daisyui_get_docs" "Get docs."
          (schemaReq [("component", propTy "string")] ["component"]),
         toolEntry "daisyui_search" "Search docs." (schemaOf [("query", propTy "string")]),
         toolEntry "daisyui_get_concept" "Get concept."
          (schemaOf [("concept", propTy "string")]),
         toolEntry "daisyui_list_concepts" "List concepts." (schemaOf []),
         toolEntry "daisyui_scaffold_dashboard" "Generate Dashboard (Legacy)."
          (schemaOf [("title", propTy "string"), ("style", propTy "string")]),
         toolEntry "daisyui_scaffold_auth" "Generate Auth (Legacy)."
          (schemaOf [("type", propTy "string")]),
         toolEntry "daisyui_scaffold_store" "Generate Store (Legacy)."
          (schemaOf [("page", propTy "string")]),
         toolEntry "daisyui_create_chart" "Generate Chart."
          (schemaOf [("type", propTy "string"), ("id", propTy "string")]),
         toolEntry "daisyui_create_table" "Generate Table."
          (schemaOf [("columns", propTy "array")]),
         toolEntry "daisyui_generate_theme" "Generate Theme."
          (schemaOf
            [("name", propTy "string"), ("primary", propTy "string"),
             ("base", propTy "string")]),
         toolEntry "daisyui_scaffold_form" "Generate Form."
          (schemaOf [("title", propTy "string"), ("fields", propTy "array")]),
         toolEntry "daisyui_get_script" "Get Script."
          (schemaOf [("component", propTy "string")])])]

/-- `scaffold_form` of `src/main.rs` (fields are JSON maps; only ever
called with an empty slice). -/
def scaffold_form (title : String) (fields : List (List (String × Json))) : String :=
  let field_html :=
    fields.foldl
      (fun acc f =>
        let nm := ((alookup f "name").bind asStr).getD "unnamed"
        acc ++ "<div class=\"form-control\"><label class=\"label\"><span class=\"label-text\">" ++
          nm ++ "</span></label><input type=\"text\" name=\"" ++ nm ++
          "\" class=\"input input-bordered\" /></div>")
      ""
  "<div class=\"card bg-base-100 w-full max-w-sm shadow-2xl\"><form class=\"card-body\"><h2 class=\"card-title justify-center\">" ++
    title ++ "</h2>" ++ field_html ++
    "<div class=\"form-control mt-6\"><button class=\"btn btn-primary\">Submit</button></div></form></div>"

/-- The tool-name dispatch of the `tools/call` arm of `handle_request` in
`src/main.rs`.  Every registered tool answers with an `Ok` payload; an
unregistered name answers with the `-32601` unknown-tool error. -/
def dispatchTool (docs : DocsCache) (concepts : ConceptEngine) (name : String)
    (args : Option (List (String × Json))) : Except JsonRpcError Json :=
  if name = "daisyui_idea_to_ui" then
    .ok (textContent (IdeaEngine.process_prompt (getArgStr args "prompt" "")))
  else if name = "daisyui_scaffold_layout" then
    .ok (textContent
      (LayoutEngine.generate (getArgStr args "layout" "saas") (getArgStr args "title" "My App")))
  else if name = "daisyui_list_components" then
    .ok (textContent (String.intercalate ", " docs.list_components))
  else if name = "daisyui_get_docs" then
    .ok (textContent ((docs.get_doc (getArgStr args "component" "")).getD "Not found"))
  else if name = "daisyui_search" then
    .ok (textContent ("Found " ++ toString (docs.search (getArgStr args "query" "")).length))
  else if name = "daisyui_get_concept" then
    .ok (textContent (dbgConceptOpt (concepts.get_concept (getArgStr args "concept" ""))))
  else if name = "daisyui_list_concepts" then
    .ok (textContent (String.intercalate ", " concepts.list_concepts))
  else if name = "daisyui_scaffold_dashboard" then
    .ok (textContent (generate_dashboard (getArgStr args "title" "Dash") [] ""))
  else if name = "daisyui_scaffold_auth" then
    .ok (textContent (generate_auth (getArgStr args "type" "login")))
  else if name = "daisyui_scaffold_store" then
    .ok (textContent (generate_store (getArgStr args "page" "home")))
  else if name = "daisyui_create_chart" then
    .ok (textContent (create_chart (getArgStr args "type" "bar") (getArgStr args "id" "c1")))
  else if name = "daisyui_create_table" then
    .ok (textContent (create_complex_table []))
  else if name = "daisyui_generate_theme" then
    .ok (textContent
      (generate_theme (getArgStr args "name" "mytheme") (getArgStr args "primary" "#000") "" ""
        (getArgStr args "base" "#fff")))
  else if name = "daisyui_scaffold_form" then
    .ok (textContent (scaffold_form (getArgStr args "title" "Form") []))
  else if name = "daisyui_get_script" then
    .ok (textContent (get_script (getArgStr args "component" "")))
  else .error ⟨-32601, "Unknown tool: " ++ name, none⟩

/-- The `result` computation of `handle_request` in `src/main.rs`: the
top-level method dispatch. -/
def handleResult (docs : DocsCache) (concepts : ConceptEngine) (req : JsonRpcRequest) :
    Except JsonRpcError Json :=
  if req.method = "initialize" then .ok initializeResult
  else if req.method = "notifications/initialized" then .ok (.str "OK")
  else if req.method = "tools/list" then .ok toolsListResult
  else if req.method = "tools/call" then
    match req.params with
    | some params =>
      dispatchTool docs concepts ((asStr (jGet params "name")).getD "")
        (asObj (jGet params "arguments"))
    | none => .error ⟨-32602, "Missing params", none⟩
  else .error ⟨-32601, "Method not found", none⟩

/-- The final envelope construction of `handle_request`: `Ok` fills
`result`, `Err` fills `error`, and the id always mirrors the request. -/
def mkResponse (idv : Option Json) (r : Except JsonRpcError Json) : JsonRpcResponse :=
  match r with
  | .ok v => ⟨"2.0", some v, none, idv⟩
  | .error e => ⟨"2.0", none, some e, idv⟩

/-- `handle_request` of `src/main.rs`. -/
def handle_request (docs : DocsCache) (concepts : ConceptEngine) (req : JsonRpcRequest) :
    JsonRpcResponse :=
  mkResponse req.id (handleResult docs concepts req)

/-- The emission decision of the main loop of `src/main.rs` for one decoded
request: the response of `handle_request` is unconditionally serialised and
printed, for notifications as well as for calls. -/
def respondTo (docs : DocsCache) (concepts : ConceptEngine) (req : JsonRpcRequest) :
    Option JsonRpcResponse :=
  some (handle_request docs concepts req)

/-- The tool names the discovery payload advertises, extracted from the
`tools/list` result. -/
def listedToolNames : List String :=
  match jGet toolsListResult "tools" with
  | .arr ts => ts.filterMap (fun t => asStr (jGet t "name"))
  | _ => []

end Server

/-! ## Character and string lemmas -/

theorem char_toNat_ofNat_valid (n : Nat) (h : n < 55296) : (Char.ofNat n).toNat = n := by
  unfold Char.ofNat
  rw [dif_pos (Or.inl h)]
  rfl

theorem lowerChar_toNat_of_upper (c : Char) (h : 65 ≤ c.toNat ∧ c.toNat ≤ 90) :
    (lowerChar c).toNat = c.toNat + 32 := by
  unfold lowerChar
  rw [if_pos h]
  exact char_toNat_ofNat_valid _ (by omega)

theorem lowerChar_eq_self (c : Char) (h : ¬ (65 ≤ c.toNat ∧ c.toNat ≤ 90)) :
    lowerChar c = c := by
  unfold lowerChar
  rw [if_neg h]

theorem lowerChar_not_upper (c : Char) :
    ¬ (65 ≤ (lowerChar c).toNat ∧ (lowerChar c).toNat ≤ 90) := by
  by_cases h : 65 ≤ c.toNat ∧ c.toNat ≤ 90
  · have h2 := lowerChar_toNat_of_upper c h
    omega
  · rw [lowerChar_eq_self c h]
    exact h

theorem lowerChar_lowerChar (c : Char) : lowerChar (lowerChar c) = lowerChar c :=
  lowerChar_eq_self _ (lowerChar_not_upper c)

theorem ws_false_of_big (d : Char) (hd : 33 ≤ d.toNat) : d.isWhitespace = false := by
  have n1 : ¬ d = ' ' := fun e => by subst e; exact absurd hd (by decide)
  have n2 : ¬ d = '\t' := fun e => by subst e; exact absurd hd (by decide)
  have n3 : ¬ d = '\x0d' := fun e => by subst e; exact absurd hd (by decide)
  have n4 : ¬ d = '\n' := fun e => by subst e; exact absurd hd (by decide)
  simp only [Char.isWhitespace, decide_eq_false n1, decide_eq_false n2,
    decide_eq_false n3, decide_eq_false n4, Bool.or_self]

theorem lowerChar_ws (c : Char) : (lowerChar c).isWhitespace = c.isWhitespace := by
  by_cases h : 65 ≤ c.toNat ∧ c.toNat ≤ 90
  · have h2 := lowerChar_toNat_of_upper c h
    rw [ws_false_of_big _ (by omega), ws_false_of_big _ (by omega)]
  · rw [lowerChar_eq_self c h]

theorem data_mk (l : List Char) : (String.mk l).data = l := rfl

theorem string_mk_data (s : String) : String.mk s.data = s := rfl

theorem lowerStr_data (s : String) : (lowerStr s).data = s.data.map lowerChar := rfl

theorem lowerStr_idem (s : String) : lowerStr (lowerStr s) = lowerStr s := by
  unfold lowerStr
  rw [data_mk, List.map_map]
  exact congrArg String.mk (List.map_congr_left fun c _ => lowerChar_lowerChar c)

theorem lowerStr_eq_empty_iff (s : String) : lowerStr s = "" ↔ s = "" := by
  constructor
  · intro h
    have hd : s.data.map lowerChar = [] := congrArg String.data h
    have : s.data = [] := List.map_eq_nil_iff.mp hd
    calc s = String.mk s.data := rfl
    _ = String.mk [] := by rw [this]
  · intro h
    subst h
    rfl

theorem listIsSub_nil (l : List Char) : listIsSub [] l = true := by
  induction l with
  | nil => rfl
  | cons c t ih => simp [listIsSub, leadsWith]

theorem containsStr_empty (h : String) : containsStr h "" = true :=
  listIsSub_nil h.data

/-! ## List helper lemmas -/

theorem foldl_preserve {σ α : Type} {P : σ → Prop} (f : σ → α → σ) :
    ∀ (l : List α) (s : σ), (∀ a ∈ l, ∀ s, P s → P (f s a)) → P s → P (l.foldl f s)
  | [], _, _, hs => hs
  | a :: t, s, h, hs =>
    foldl_preserve f t (f s a) (fun b hb => h b (List.mem_cons_of_mem a hb))
      (h a (List.mem_cons_self a t) s hs)

theorem mapInsert_keys_nodup {β : Type} (m : List (String × β)) (k : String) (v : β)
    (h : (m.map Prod.fst).Nodup) : ((mapInsert m k v).map Prod.fst).Nodup := by
  unfold mapInsert
  rw [List.map_append]
  rw [List.nodup_append]
  refine ⟨((List.filter_sublist m).map Prod.fst).nodup h, List.nodup_singleton _, ?_⟩
  intro x hx hx2
  rw [List.map_singleton, List.mem_singleton] at hx2
  subst hx2
  obtain ⟨p, hp, hpx⟩ := List.mem_map.mp hx
  have := (List.mem_filter.mp hp).2
  simp only [decide_not, Bool.not_eq_true', decide_eq_false_iff_not] at this
  exact this hpx

theorem idxPush_keys (m : List (String × List String)) (tok key : String) :
    ∀ x ∈ (idxPush m tok key).map Prod.fst, x = tok ∨ x ∈ m.map Prod.fst := by
  intro x hx
  unfold idxPush at hx
  by_cases h : m.any (fun p => p.1 = tok) = true
  · rw [if_pos h, List.map_map] at hx
    right
    rw [show (Prod.fst ∘ fun p : String × List String =>
        if p.1 = tok then (p.1, p.2 ++ [key]) else p) = fun p => p.1 from funext fun p => by
      by_cases hp : p.1 = tok <;> simp [hp]] at hx
    exact hx
  · rw [if_neg h, List.map_append, List.mem_append] at hx
    rcases hx with hx | hx
    · exact Or.inr hx
    · rw [List.mem_map] at hx
      obtain ⟨p, hp, hpx⟩ := hx
      rw [List.mem_singleton] at hp
      subst hp
      exact Or.inl hpx.symm

theorem splitWsAux_no_ws :
    ∀ (l acc : List Char), acc.all (fun c => !c.isWhitespace) = true →
      ∀ w ∈ splitWsAux l acc, w.data.all (fun c => !c.isWhitespace) = true := by
  intro l
  induction l with
  | nil =>
    intro acc hacc w hw
    unfold splitWsAux at hw
    by_cases h : acc.isEmpty = true
    · rw [if_pos h] at hw
      exact absurd hw (List.not_mem_nil w)
    · rw [if_neg h, List.mem_singleton] at hw
      subst hw
      rw [data_mk, List.all_reverse]
      exact hacc
  | cons c t ih =>
    intro acc hacc w hw
    unfold splitWsAux at hw
    by_cases hc : c.isWhitespace = true
    · rw [if_pos hc] at hw
      by_cases he : acc.isEmpty = true
      · rw [if_pos he] at hw
        exact ih [] rfl w hw
      · rw [if_neg he, List.mem_cons] at hw
        rcases hw with hw | hw
        · subst hw
          rw [data_mk, List.all_reverse]
          exact hacc
        · exact ih [] rfl w hw
    · rw [if_neg hc] at hw
      refine ih (c :: acc) ?_ w hw
      simp [List.all_cons, hacc, hc]

/-! ## Parser invariants -/

theorem flushEntry_components (st : Ext.LoadState) :
    (Ext.flushEntry st).components
      = mapInsert st.components (lowerStr (trimStr st.curComp)) (trimStr st.curContent) := rfl

theorem flushEntry_index (st : Ext.LoadState) :
    (Ext.flushEntry st).index
      = Ext.indexContent st.index st.curContent (lowerStr (trimStr st.curComp)) := rfl

theorem loadLine_nodup (st : Ext.LoadState) (line : String)
    (h : (st.components.map Prod.fst).Nodup) :
    ((Ext.loadLine st line).components.map Prod.fst).Nodup := by
  unfold Ext.loadLine
  cases hs : splitHeading line with
  | some stripped =>
    dsimp only
    split
    · rw [flushEntry_components]
      exact mapInsert_keys_nodup _ _ _ h
    · exact h
  | none =>
    dsimp only
    split
    · exact h
    · exact h

theorem load_components_nodup (ls : List String) :
    ((Ext.DocsCache.load ls).components.map Prod.fst).Nodup := by
  unfold Ext.DocsCache.load
  have hfold : ((ls.foldl Ext.loadLine ⟨[], [], "", ""⟩).components.map Prod.fst).Nodup := by
    refine foldl_preserve (P := fun st : Ext.LoadState => (st.components.map Prod.fst).Nodup)
      Ext.loadLine ls ⟨[], [], "", ""⟩ ?_ (by simp)
    intro line _ st hst
    exact loadLine_nodup st line hst
  dsimp only
  split
  · rw [flushEntry_components]
    exact mapInsert_keys_nodup _ _ _ hfold
  · exact hfold

/-- Well-formedness of one search-index key: more than 3 UTF-8 bytes long,
fixed under lowercasing, and containing no whitespace. -/
def IndexKeyOk (tok : String) : Prop :=
  3 < utf8Len tok ∧ lowerStr tok = tok ∧ tok.data.all (fun c => !c.isWhitespace) = true

theorem lowerStr_no_ws (w : String) (h : w.data.all (fun c => !c.isWhitespace) = true) :
    (lowerStr w).data.all (fun c => !c.isWhitespace) = true := by
  rw [List.all_eq_true] at h ⊢
  intro c hc
  rw [lowerStr_data, List.mem_map] at hc
  obtain ⟨d, hd, rfl⟩ := hc
  simp only [lowerChar_ws]
  exact h d hd

theorem indexContent_keys_ok (content key : String) (ix : List (String × List String))
    (hix : ∀ tok ∈ ix.map Prod.fst, IndexKeyOk tok) :
    ∀ tok ∈ (Ext.indexContent ix content key).map Prod.fst, IndexKeyOk tok := by
  unfold Ext.indexContent
  refine foldl_preserve
    (P := fun ix : List (String × List String) => ∀ tok ∈ ix.map Prod.fst, IndexKeyOk tok)
    _ _ _ ?_ hix
  intro word hword ix2 hix2 tok htok
  dsimp only at htok
  by_cases hg : 3 < utf8Len (lowerStr word)
  · rw [if_pos hg] at htok
    rcases idxPush_keys _ _ _ tok htok with rfl | hmem
    · exact ⟨hg, lowerStr_idem word, lowerStr_no_ws word (splitWsAux_no_ws content.data [] rfl word hword)⟩
    · exact hix2 tok hmem
  · rw [if_neg hg] at htok
    exact hix2 tok htok

theorem loadLine_index_ok (st : Ext.LoadState) (line : String)
    (h : ∀ tok ∈ st.index.map Prod.fst, IndexKeyOk tok) :
    ∀ tok ∈ (Ext.loadLine st line).index.map Prod.fst, IndexKeyOk tok := by
  unfold Ext.loadLine
  cases hs : splitHeading line with
  | some stripped =>
    dsimp only
    split
    · rw [flushEntry_index]
      exact indexContent_keys_ok _ _ _ h
    · exact h
  | none =>
    dsimp only
    split
    · exact h
    · exact h

theorem load_index_ok (ls : List String) :
    ∀ tok ∈ (Ext.DocsCache.load ls).index.map Prod.fst, IndexKeyOk tok := by
  unfold Ext.DocsCache.load
  have hfold : ∀ tok ∈ (ls.foldl Ext.loadLine ⟨[], [], "", ""⟩).index.map Prod.fst,
      IndexKeyOk tok := by
    refine foldl_preserve
      (P := fun st : Ext.LoadState => ∀ tok ∈ st.index.map Prod.fst, IndexKeyOk tok)
      Ext.loadLine ls ⟨[], [], "", ""⟩ ?_ (by simp)
    intro line _ st hst
    exact loadLine_index_ok st line hst
  dsimp only
  split
  · rw [flushEntry_index]
    exact indexContent_keys_ok _ _ _ hfold
  · exact hfold

/-! ## Claim theorems: corpus engine -/

/-- C6: for every corpus the finalized entry keys of the parsed store are
pairwise distinct, and on duplicate headings the later entry overwrites the
earlier one, so the later body survives. -/
theorem entry_keys_unique_last_wins :
    (∀ ls : List String, ((Ext.DocsCache.load ls).components.map Prod.fst).Nodup) ∧
      (Ext.DocsCache.load ["### Btn", "first body", "### Btn", "second body"]).get_doc "btn"
        = some "### Btn\nsecond body" :=
  ⟨load_components_nodup, by decide⟩

/-- C4 (counterexample): the word `word`, of length 4, is stored as an
index key, so words of length 4 are indexed, contradicting the claim that
only words strictly longer than 4 characters are. -/
theorem index_token_of_length_four :
    "word" ∈ (Ext.DocsCache.load ["### A", "word here"]).index.map Prod.fst ∧
      "word".data.length = 4 ∧ utf8Len "word" = 4 := by
  decide

/-- C4 (amended): every key of the search index built by the parser is a
lowercase whitespace-free token whose UTF-8 byte length is strictly greater
than 3; words of 3 bytes or less are never indexed (the source tests
`word_lower.len() > 3`, a byte count, so a short multi-byte word can be
indexed while a 3-letter ASCII word never is). -/
theorem index_tokens_lowercase_longer_than_three (ls : List String) (tok : String)
    (h : tok ∈ (Ext.DocsCache.load ls).index.map Prod.fst) :
    3 < utf8Len tok ∧ lowerStr tok = tok ∧
      tok.data.all (fun c => !c.isWhitespace) = true :=
  load_index_ok ls tok h

/-- Witness for the amended C4 at a concrete corpus and token. -/
theorem index_tokens_lowercase_longer_than_three_witness :
    "words" ∈ (Ext.DocsCache.load ["### A", "words here"]).index.map Prod.fst ∧
      (3 < utf8Len "words" ∧ lowerStr "words" = "words" ∧
        "words".data.all (fun c => !c.isWhitespace) = true) :=
  ⟨by decide, index_tokens_lowercase_longer_than_three ["### A", "words here"] "words" (by decide)⟩

/-- C3 (counterexample): `get_doc` is not whitespace-insensitive — on the
store parsed from `### Button` the padded name misses while the plain
lowercase name hits. -/
theorem get_doc_not_whitespace_insensitive :
    (Ext.DocsCache.load ["### Button", "Use it."]).get_doc " Button "
      ≠ (Ext.DocsCache.load ["### Button", "Use it."]).get_doc "button" := by
  decide

/-- C3 (amended): `get_doc` is case-insensitive — any two names with the
same lowercasing give the same result — but it does not trim whitespace. -/
theorem get_doc_case_insensitive (c : Ext.DocsCache) (n1 n2 : String)
    (h : lowerStr n1 = lowerStr n2) :
    c.get_doc n1 = c.get_doc n2 := by
  unfold Ext.DocsCache.get_doc
  by_cases h1 : n1 = ""
  · subst h1
    have h2 : n2 = "" := by
      rw [← lowerStr_eq_empty_iff, ← h]
      rfl
    subst h2
    rfl
  · have h2 : ¬ n2 = "" := by
      intro e
      subst e
      exact h1 (by rw [← lowerStr_eq_empty_iff, h]; rfl)
    rw [if_neg h1, if_neg h2, h]

/-- Witness for the amended C3: two casings of `button` agree on a concrete
store. -/
theorem get_doc_case_insensitive_witness :
    lowerStr "BuTTon" = lowerStr "button" ∧
      (Ext.DocsCache.load ["### Button", "Use it."]).get_doc "BuTTon"
        = (Ext.DocsCache.load ["### Button", "Use it."]).get_doc "button" :=
  ⟨by decide, get_doc_case_insensitive _ "BuTTon" "button" (by decide)⟩

/-- C2 (counterexample): on the concrete two-entry corpus, `search "class"`
does not return both entries with score 15 in the order `btn`, `card`. -/
theorem concrete_corpus_search_scores_counterexample :
    (Ext.DocsCache.load (rustLines
        "### Btn\nUse the btn class.\n### Card\nUse the card class for containers.\n")).search
        "class"
      ≠ [("btn", "### Btn\nUse the btn class.", 15),
         ("card", "### Card\nUse the card class for containers.", 15)] := by
  decide

/-- C2 (amended): on the concrete corpus `getDoc "btn"` returns the Btn
entry as claimed, but `search "class"` scores `card` 15 (body substring 10
plus indexed token 5) and `btn` only 10 (its body tokenises to `class.`
with the trailing period, so the bucket of `class` does not list it),
returning the order `card`, `btn`. -/
theorem concrete_corpus_getdoc_and_search :
    (Ext.DocsCache.load (rustLines
        "### Btn\nUse the btn class.\n### Card\nUse the card class for containers.\n")).get_doc
        "btn"
      = some "### Btn\nUse the btn class." ∧
    (Ext.DocsCache.load (rustLines
        "### Btn\nUse the btn class.\n### Card\nUse the card class for containers.\n")).search
        "class"
      = [("card", "### Card\nUse the card class for containers.", 15),
         ("btn", "### Btn\nUse the btn class.", 10)] := by
  constructor
  · decide
  · decide

/-- C10: the title text interpolated by `LayoutEngine::generate` of the
extension is the sanitized title: it only contains alphanumeric,
whitespace, dash or underscore characters, and is at most 100 characters
long. -/
theorem generate_interpolates_sanitized_title (layout title : String) :
    (Ext.LayoutEngine.sanitize title).data.all Ext.sanitizeOkChar = true ∧
      (Ext.LayoutEngine.sanitize title).data.length ≤ 100 ∧
      Ext.LayoutEngine.generate layout title
        = Ext.LayoutEngine.generateRaw layout (Ext.LayoutEngine.sanitize title) := by
  refine ⟨?_, ?_, rfl⟩
  · rw [List.all_eq_true]
    intro c hc
    have hc2 := (List.take_sublist 100 _).subset hc
    exact (List.mem_filter.mp hc2).2
  · exact List.length_take_le 100 _

/-! ## Claim theorems: empty query and dispatcher -/

/-- C5 (counterexample): the search of the server (`src/main.rs`) applied
to the empty query returns every entry of a non-empty store, not an empty
result set. -/
theorem server_search_empty_query_nonempty :
    (Server.DocsCache.load ["### Btn", "x"]).search "" ≠ [] := by
  decide

/-- C5 (amended): the scored search of the extension returns the empty list
on the empty query, while the substring search of the server matches every
entry on the empty query and returns the whole store sorted by key. -/
theorem empty_query_search_behaviour :
    (∀ c : Ext.DocsCache, c.search "" = []) ∧
      (∀ c : Server.DocsCache,
        c.search "" = sortBy (fun a b => lexLe a.1.data b.1.data) c.components) := by
  constructor
  · intro c
    rfl
  · intro c
    unfold Server.DocsCache.search
    dsimp only
    congr 1
    rw [List.filter_eq_self]
    intro p _
    rw [show lowerStr "" = "" from rfl, containsStr_empty]
    rfl

/-- C7 (counterexample): a request without an id (a notification) still
produces a response envelope: the emission decision of the main loop is
unconditional. -/
theorem notification_gets_response :
    (Server.JsonRpcRequest.mk "2.0" "notifications/initialized" none none).id = none ∧
      (Server.respondTo (Server.DocsCache.load []) Server.ConceptEngine.new
          ⟨"2.0", "notifications/initialized", none, none⟩).isSome = true :=
  ⟨rfl, rfl⟩

/-- C7 (amended): every decoded request — notifications with no id
included — produces exactly one response envelope, and the envelope id
always mirrors the request id. -/
theorem every_request_gets_enveloped_response (docs : Server.DocsCache)
    (concepts : Server.ConceptEngine) (req : Server.JsonRpcRequest) :
    (Server.respondTo docs concepts req).isSome = true ∧
      (Server.handle_request docs concepts req).id = req.id := by
  refine ⟨rfl, ?_⟩
  unfold Server.handle_request
  cases Server.handleResult docs concepts req <;> rfl

/-- C8 (counterexample): invoking `daisyui_get_docs` without its required
`component` argument yields a success envelope (no error), not an
InvalidParams error. -/
theorem missing_required_arg_no_invalid_params :
    (Server.handle_request (Server.DocsCache.load []) Server.ConceptEngine.new
        ⟨"2.0", "tools/call",
          some (.obj [("name", .str "daisyui_get_docs"), ("arguments", .obj [])]),
          some (.num 1)⟩).error = none ∧
      (Server.handle_request (Server.DocsCache.load []) Server.ConceptEngine.new
          ⟨"2.0", "tools/call",
            some (.obj [("name", .str "daisyui_get_docs"), ("arguments", .obj [])]),
            some (.num 1)⟩).result.isSome = true :=
  ⟨rfl, rfl⟩

/-- C8 (amended): a missing or empty required tool argument is replaced by
the per-tool default and the call reports a success result; only a request
whose params object is absent altogether yields the InvalidParams
(`-32602`) error envelope. -/
theorem missing_args_defaulted_success (docs : Server.DocsCache)
    (concepts : Server.ConceptEngine) (idv : Option Server.Json) :
    (Server.handle_request docs concepts ⟨"2.0", "tools/call", none, idv⟩).error
        = some ⟨-32602, "Missing params", none⟩ ∧
      (Server.handle_request docs concepts
          ⟨"2.0", "tools/call",
            some (.obj [("name", .str "daisyui_get_docs"), ("arguments", .obj [])]),
            idv⟩).error = none ∧
      (Server.handle_request docs concepts
          ⟨"2.0", "tools/call",
            some (.obj [("name", .str "daisyui_get_docs"),
              ("arguments", .obj [("component", .str "")])]),
            idv⟩).result
        = some (Server.textContent ((docs.get_doc "").getD "Not found")) :=
  ⟨rfl, rfl, rfl⟩

theorem listedToolNames_eval :
    Server.listedToolNames
      = ["daisyui_idea_to_ui", "daisyui_scaffold_layout", "daisyui_list_components",
         "daisyui_get_docs", "daisyui_search", "daisyui_get_concept", "daisyui_list_concepts",
         "daisyui_scaffold_dashboard", "daisyui_scaffold_auth", "daisyui_scaffold_store",
         "daisyui_create_chart", "daisyui_create_table", "daisyui_generate_theme",
         "daisyui_scaffold_form", "daisyui_get_script"] := rfl

theorem dispatch_ok_of_listed (docs : Server.DocsCache) (concepts : Server.ConceptEngine)
    (args : Option (List (String × Server.Json))) (name : String)
    (h : name ∈ Server.listedToolNames) :
    ∃ v, Server.dispatchTool docs concepts name args = .ok v := by
  rw [listedToolNames_eval] at h
  simp only [List.mem_cons, List.not_mem_nil, or_false] at h
  rcases h with rfl | rfl | rfl | rfl | rfl | rfl | rfl | rfl | rfl | rfl | rfl | rfl | rfl |
    rfl | rfl <;> exact ⟨_, rfl⟩

theorem dispatch_unknown_of_not_listed (docs : Server.DocsCache)
    (concepts : Server.ConceptEngine) (args : Option (List (String × Server.Json)))
    (name : String) (h : name ∉ Server.listedToolNames) :
    Server.dispatchTool docs concepts name args
      = .error ⟨-32601, "Unknown tool: " ++ name, none⟩ := by
  rw [listedToolNames_eval] at h
  simp only [List.mem_cons, List.not_mem_nil, or_false, not_or] at h
  obtain ⟨h1, h2, h3, h4, h5, h6, h7, h8, h9, h10, h11, h12, h13, h14, h15⟩ := h
  unfold Server.dispatchTool
  rw [if_neg h1, if_neg h2, if_neg h3, if_neg h4, if_neg h5, if_neg h6, if_neg h7, if_neg h8,
    if_neg h9, if_neg h10, if_neg h11, if_neg h12, if_neg h13, if_neg h14, if_neg h15]

/-- C9: the set of tool names advertised by `tools/list` is exactly the set
of names `tools/call` dispatches without the unknown-tool error: a name is
listed iff invoking it does not produce the `-32601` unknown-tool
envelope. -/
theorem discovery_matches_invocation (docs : Server.DocsCache)
    (concepts : Server.ConceptEngine) (idv : Option Server.Json) (name : String) :
    name ∈ Server.listedToolNames ↔
      (Server.handle_request docs concepts
          ⟨"2.0", "tools/call",
            some (.obj [("name", .str name), ("arguments", .obj [])]), idv⟩).error
        ≠ some ⟨-32601, "Unknown tool: " ++ name, none⟩ := by
  have hred : Server.handle_request docs concepts
      ⟨"2.0", "tools/call",
        some (.obj [("name", .str name), ("arguments", .obj [])]), idv⟩
      = Server.mkResponse idv (Server.dispatchTool docs concepts name (some [])) := rfl
  rw [hred]
  constructor
  · intro h
    obtain ⟨v, hv⟩ := dispatch_ok_of_listed docs concepts (some []) name h
    rw [hv]
    intro e
    exact Option.noConfusion e
  · intro h
    by_contra hn
    apply h
    rw [dispatch_unknown_of_not_listed docs concepts (some []) name hn]
    rfl

/-! ## Search refinement: the code pipeline versus the spec pipeline -/

theorem entryScore_foldl_count (c : Ext.DocsCache) (name : String) :
    ∀ (l : List String) (base : Nat),
      l.foldl
        (fun s w =>
          match alookup c.index w with
          | some ms => if ms.contains name then s + 5 else s
          | none => s)
        base
      = base + 5 * l.countP (termHit c name) := by
  intro l
  induction l with
  | nil => intro base; simp
  | cons w t ih =>
    intro base
    rw [List.foldl_cons, List.countP_cons]
    cases haw : alookup c.index w with
    | none =>
      have ht : termHit c name w = false := by unfold termHit; rw [haw]
      rw [ht, if_neg Bool.false_ne_true]
      dsimp only [haw]
      rw [ih base]
      omega
    | some ms =>
      have ht : termHit c name w = ms.contains name := by unfold termHit; rw [haw]
      dsimp only [haw]
      by_cases hms : ms.contains name = true
      · rw [if_pos hms, ih (base + 5), ht, hms, if_pos rfl]
        omega
      · have hf : ms.contains name = false := by rwa [Bool.not_eq_true] at hms
        rw [if_neg hms, ih base, ht, hf, if_neg Bool.false_ne_true]
        omega

theorem entryScore_eq_spec (c : Ext.DocsCache) (q name content : String) :
    Ext.entryScore c q name content = specScoreMult c q name content := by
  unfold Ext.entryScore specScoreMult
  rw [entryScore_foldl_count c name (splitWsStr q)]

theorem scoreEntry_eq_proj (c : Ext.DocsCache) (q : String) (p : String × String) :
    Ext.scoreEntry c q p = (specTuple c q p).map (fun t => (t.1, t.2.2)) := by
  unfold Ext.scoreEntry specTuple
  rw [entryScore_eq_spec]
  by_cases hp : 0 < specScoreMult c q p.1 p.2
  · rw [if_pos hp, if_pos hp]
    rfl
  · rw [if_neg hp, if_neg hp]
    rfl

theorem filterMap_map_of_comp {α β γ : Type} (f : α → Option γ) (g : α → Option β) (h : β → γ)
    (hfg : ∀ a, f a = (g a).map h) : ∀ l : List α, l.filterMap f = (l.filterMap g).map h := by
  intro l
  induction l with
  | nil => rfl
  | cons a t ih =>
    cases hga : g a with
    | none =>
      have hfa : f a = none := by rw [hfg a, hga]; rfl
      rw [List.filterMap_cons_none hfa, List.filterMap_cons_none hga, ih]
    | some b =>
      have hfa : f a = some (h b) := by rw [hfg a, hga]; rfl
      rw [List.filterMap_cons_some hfa, List.filterMap_cons_some hga, List.map_cons, ih]

theorem scores_eq_spec_proj (c : Ext.DocsCache) (q : String) (l : List (String × String)) :
    l.filterMap (Ext.scoreEntry c q)
      = (l.filterMap (specTuple c q)).map (fun t => (t.1, t.2.2)) :=
  filterMap_map_of_comp _ _ _ (scoreEntry_eq_proj c q) l

theorem specTuple_shape (c : Ext.DocsCache) (q : String) (p : String × String)
    (t : String × String × Nat) (h : specTuple c q p = some t) :
    t = (p.1, p.2, specScoreMult c q p.1 p.2) := by
  unfold specTuple at h
  by_cases hp : 0 < specScoreMult c q p.1 p.2
  · rw [if_pos hp] at h
    exact (Option.some.inj h).symm
  · rw [if_neg hp] at h
    exact Option.noConfusion h

theorem specTuples_names_sublist (c : Ext.DocsCache) (q : String) :
    ∀ l : List (String × String),
      ((l.filterMap (specTuple c q)).map (fun t => t.1)).Sublist (l.map Prod.fst) := by
  intro l
  induction l with
  | nil => exact List.Sublist.refl []
  | cons p t ih =>
    rw [List.filterMap_cons, List.map_cons]
    cases h : specTuple c q p with
    | none => exact ih.cons p.1
    | some u =>
      rw [List.map_cons]
      have : u.1 = p.1 := by rw [specTuple_shape c q p u h]
      rw [this]
      exact ih.cons₂ p.1

theorem alookup_eq_of_mem_nodup {β : Type} :
    ∀ (l : List (String × β)), (l.map Prod.fst).Nodup →
      ∀ (k : String) (v : β), (k, v) ∈ l → alookup l k = some v := by
  intro l
  induction l with
  | nil => intro _ k v hm; exact absurd hm (List.not_mem_nil _)
  | cons p t ih =>
    intro hnd k v hm
    rw [List.map_cons, List.nodup_cons] at hnd
    unfold alookup
    rcases List.mem_cons.mp hm with rfl | hm2
    · rw [if_pos rfl]
    · by_cases hpk : p.1 = k
      · exfalso
        apply hnd.1
        rw [hpk]
        exact List.mem_map.mpr ⟨(k, v), hm2, rfl⟩
      · rw [if_neg hpk]
        exact ih hnd.2 k v hm2

theorem alookup_map_self {g : String × String × Nat → Nat} :
    ∀ (m : List (String × String × Nat)), ((m.map (fun t => t.1)).Nodup) →
      ∀ t ∈ m, alookup (m.map (fun t => (t.1, g t))) t.1 = some (g t) := by
  intro m
  induction m with
  | nil => intro _ t ht; exact absurd ht (List.not_mem_nil _)
  | cons u rest ih =>
    intro hnd t ht
    rw [List.map_cons, List.nodup_cons] at hnd
    rw [List.map_cons]
    unfold alookup
    rcases List.mem_cons.mp ht with rfl | ht2
    · rw [if_pos rfl]
    · by_cases hut : u.1 = t.1
      · exfalso
        apply hnd.1
        rw [hut]
        exact List.mem_map.mpr ⟨t, ht2, rfl⟩
      · rw [if_neg hut]
        exact ih hnd.2 t ht2

theorem mem_insertLe {α : Type} (le : α → α → Bool) (a x : α) (l : List α) :
    x ∈ insertLe le a l ↔ x = a ∨ x ∈ l := by
  induction l with
  | nil => simp [insertLe]
  | cons b t ih =>
    unfold insertLe
    by_cases h : le a b = true
    · rw [if_pos h]
      simp [List.mem_cons]
    · rw [if_neg h]
      simp only [List.mem_cons, ih]
      tauto

theorem mem_sortBy {α : Type} (le : α → α → Bool) (x : α) :
    ∀ l : List α, x ∈ sortBy le l ↔ x ∈ l := by
  intro l
  induction l with
  | nil => exact Iff.rfl
  | cons a t ih =>
    unfold sortBy
    rw [mem_insertLe]
    simp only [List.mem_cons, ih]

theorem insertLe_map {α β : Type} (f : α → β) (le : α → α → Bool) (le' : β → β → Bool)
    (a : α) :
    ∀ l : List α, (∀ y ∈ l, le' (f a) (f y) = le a y) →
      insertLe le' (f a) (l.map f) = (insertLe le a l).map f := by
  intro l
  induction l with
  | nil => intro _; rfl
  | cons b t ih =>
    intro h
    rw [List.map_cons]
    unfold insertLe
    rw [h b (List.mem_cons_self b t)]
    by_cases hb : le a b = true
    · rw [if_pos hb, if_pos hb, List.map_cons, List.map_cons]
    · rw [if_neg hb, if_neg hb, List.map_cons, ih (fun y hy => h y (List.mem_cons_of_mem b hy))]

theorem sortBy_map {α β : Type} (f : α → β) (le : α → α → Bool) (le' : β → β → Bool) :
    ∀ l : List α, (∀ x ∈ l, ∀ y ∈ l, le' (f x) (f y) = le x y) →
      sortBy le' (l.map f) = (sortBy le l).map f := by
  intro l
  induction l with
  | nil => intro _; rfl
  | cons a t ih =>
    intro h
    rw [List.map_cons]
    unfold sortBy
    rw [ih (fun x hx y hy =>
      h x (List.mem_cons_of_mem a hx) y (List.mem_cons_of_mem a hy))]
    exact insertLe_map f le le' a (sortBy le t)
      (fun y hy =>
        h a (List.mem_cons_self a t) y
          (List.mem_cons_of_mem a ((mem_sortBy le y t).mp hy)))

theorem filterMap_recover {G : String → Option (String × String × Nat)} :
    ∀ m : List (String × String × Nat), (∀ t ∈ m, G t.1 = some t) →
      (m.map (fun t => t.1)).filterMap G = m := by
  intro m
  induction m with
  | nil => intro _; rfl
  | cons t rest ih =>
    intro h
    rw [List.map_cons, List.filterMap_cons, h t (List.mem_cons_self t rest)]
    rw [ih (fun u hu => h u (List.mem_cons_of_mem t hu))]

/-! ## Claim theorems: search scoring -/

/-- C1 (counterexample): with the duplicated query term `zebra zebra` the
code adds the 5-point term bonus twice, so the result differs from the
claimed formula that counts distinct terms once. -/
theorem search_distinct_terms_counterexample :
    (Ext.DocsCache.load ["### Alpha", "zebra zebra"]).search "zebra zebra"
      ≠ searchSpecDistinct (Ext.DocsCache.load ["### Alpha", "zebra zebra"]) "zebra zebra" := by
  decide

/-- C1 (amended): for every store with pairwise-distinct entry keys and
every non-empty query, `search` realises the claimed pipeline — score
`100·[key contains query] + 10·[lowercased body contains query] +
5·(number of query-term occurrences, counted with multiplicity, whose
index bucket lists the key)`, entries scoring 0 excluded, sorted by score
descending then key ascending, truncated to the top 20, each row carrying
`(key, body, score)`. -/
theorem search_matches_spec_with_multiplicity (c : Ext.DocsCache) (q : String)
    (hnd : (c.components.map Prod.fst).Nodup) (hq : q ≠ "") :
    c.search q = searchSpecMult c q := by
  unfold Ext.DocsCache.search searchSpecMult
  rw [if_neg hq]
  dsimp only
  have hS : List.filterMap (Ext.scoreEntry c (lowerStr q)) c.components
      = (specTuples c (lowerStr q)).map (fun t => (t.1, t.2.2)) :=
    scores_eq_spec_proj c (lowerStr q) c.components
  have hTnodup : ((specTuples c (lowerStr q)).map (fun t => t.1)).Nodup :=
    List.Nodup.sublist (specTuples_names_sublist c (lowerStr q) c.components) hnd
  have hmemlookup : ∀ t ∈ specTuples c (lowerStr q),
      alookup c.components t.1 = some t.2.1 := by
    intro t ht
    obtain ⟨p, hp, hpt⟩ := List.mem_filterMap.mp ht
    have hsh := specTuple_shape c (lowerStr q) p t hpt
    subst hsh
    exact alookup_eq_of_mem_nodup c.components hnd p.1 p.2 hp
  have hscorelookup : ∀ t ∈ specTuples c (lowerStr q),
      alookup ((specTuples c (lowerStr q)).map (fun t => (t.1, t.2.2))) t.1
        = some t.2.2 :=
    fun t ht => alookup_map_self (specTuples c (lowerStr q)) hTnodup t ht
  have hcomp : ∀ x ∈ specTuples c (lowerStr q), ∀ y ∈ specTuples c (lowerStr q),
      Ext.rankLe ((specTuples c (lowerStr q)).map (fun t => (t.1, t.2.2))) x.1 y.1
        = tupLe x y := by
    intro x hx y hy
    unfold Ext.rankLe tupLe
    rw [hscorelookup x hx, hscorelookup y hy]
    rfl
  rw [hS]
  have hnames : ((specTuples c (lowerStr q)).map (fun t => (t.1, t.2.2))).map Prod.fst
      = (specTuples c (lowerStr q)).map (fun t => t.1) := by
    rw [List.map_map]
    rfl
  rw [hnames]
  rw [sortBy_map (fun t => t.1) tupLe _ (specTuples c (lowerStr q)) hcomp]
  rw [← List.map_take]
  apply filterMap_recover
  intro t ht
  have htT : t ∈ specTuples c (lowerStr q) :=
    (mem_sortBy tupLe t (specTuples c (lowerStr q))).mp ((List.take_sublist 20 _).subset ht)
  simp only [hmemlookup t htT, hscorelookup t htT]
  rfl

/-- Witness for the amended C1 at the concrete two-entry corpus and the
query `class`. -/
theorem search_matches_spec_with_multiplicity_witness :
    ((Ext.DocsCache.load (rustLines
        "### Btn\nUse the btn class.\n### Card\nUse the card class for containers.\n")).components.map
          Prod.fst).Nodup ∧
      "class" ≠ "" ∧
      (Ext.DocsCache.load (rustLines
          "### Btn\nUse the btn class.\n### Card\nUse the card class for containers.\n")).search
          "class"
        = searchSpecMult
            (Ext.DocsCache.load (rustLines
              "### Btn\nUse the btn class.\n### Card\nUse the card class for containers.\n"))
            "class" :=
  ⟨by decide, by decide,
    search_matches_spec_with_multiplicity _ "class" (by decide) (by decide)⟩
